import Mathlib

/-
Verification of the personal-baseline / multi-signal risk / alert core of the
oura-mcp-server repository.

The embedding is shallow: each relevant Python function from
`src/oura_mcp/utils/` is translated into a Lean definition over exact
arithmetic (ℚ for the purely rational modules, ℝ for the baseline-statistics
module whose standard deviation is a square root).  Daily records are
structures with `Option` fields: `none` models a key that is absent from the
record dictionary.  Free-form message / recommendation strings produced by the
source are pure functions of the numeric fields and are omitted from the
embedded result types; a comment at each omission says so.
-/

namespace OuraCore

/-- Arithmetic mean of a list of rationals; the source's `statistics.mean`
(only ever called on non-empty lists). -/
def ratMean (l : List ℚ) : ℚ := l.sum / l.length

/-! ## interpretation.py — `InterpretationEngine.interpret_recovery_state`

Source: `src/oura_mcp/utils/interpretation.py`, lines 330-408. -/

namespace Interpretation

/-- The weighted recovery score computed at interpretation.py lines 354-360:
`hrv_balance*0.35 + readiness*0.30 + sleep_score*0.20
 + max(0, 100 - abs(resting_hr_deviation)*10)*0.10 + temperature_score*0.05`. -/
def recoveryScore (readiness hrv_balance resting_hr_deviation sleep_score
    temperature_score : ℚ) : ℚ :=
  hrv_balance * 0.35 +
  readiness * 0.30 +
  sleep_score * 0.20 +
  max 0 (100 - |resting_hr_deviation| * 10) * 0.10 +
  temperature_score * 0.05

/-- The five-tier recovery state chosen from the score by the cutpoint chain at
interpretation.py lines 363-392.  (The source also attaches an emoji,
description, training recommendation and a fixed confidence constant to each
tier, and rounds the reported score to one decimal for display; those fields
are determined by the tier / score and are not modelled.) -/
def recoveryState (score : ℚ) : String :=
  if 80 ≤ score then "Fully Recovered"
  else if 70 ≤ score then "Well Recovered"
  else if 60 ≤ score then "Adequately Recovered"
  else if 50 ≤ score then "Partially Recovered"
  else "Not Recovered"

end Interpretation

/-! ## alert_system.py — the sleep-debt accumulator

Source: `src/oura_mcp/utils/alert_system.py`,
`AlertSystem._check_sleep_debt_alerts`, lines 285-333. -/

namespace AlertSystem

/-- One sleep session as read by the alert rules: optional overall score,
optional total sleep duration in seconds, optional efficiency. -/
structure SleepSession where
  score : Option ℚ
  total_sleep_duration : Option ℚ
  efficiency : Option ℚ
deriving DecidableEq

/-- `session.get("total_sleep_duration", 0) / 3600` (alert_system.py line 300):
a missing duration defaults to 0 seconds. -/
def durationHours (s : SleepSession) : ℚ := s.total_sleep_duration.getD 0 / 3600

/-- One iteration of the sleep-debt loop (alert_system.py lines 300-307) with
the hard-coded `optimal_hours = 8.0`: a positive deficit is added in full; a
surplus pays existing debt back at a 50% rate, clamped at zero. -/
def debtStep (debt : ℚ) (s : SleepSession) : ℚ :=
  let deficit := 8 - durationHours s
  if 0 < deficit then debt + deficit
  else max 0 (debt + deficit * 0.5)

/-- The accumulated sleep debt over the last seven sleep records
(`for session in sleep_data[-7:]`, alert_system.py lines 293-307), starting
from 0.  The surrounding rule compares this value against the scaled warning /
critical thresholds to emit alerts; the claims under verification concern the
accumulator itself. -/
def accumulatedSleepDebt (sleep : List SleepSession) : ℚ :=
  (sleep.drop (sleep.length - 7)).foldl debtStep 0

/-- The efficiency-as-score proxy of `_check_consecutive_bad_nights`
(alert_system.py lines 400-404): when the overall score is missing or 0,
Python truthiness on the efficiency picks min(100, efficiency × 1.2), or 50
when the efficiency is absent or 0. -/
def proxyScore (s : SleepSession) : ℚ :=
  let efficiency := s.efficiency.getD 0
  if efficiency ≠ 0 then min 100 (efficiency * 1.2) else 50

/-- The effective score of one night in `_check_consecutive_bad_nights`
(alert_system.py lines 395-404). -/
def badNightScore (s : SleepSession) : ℚ :=
  match s.score with
  | none => proxyScore s
  | some sc => if sc = 0 then proxyScore s else sc

/-- The bad-night criterion (alert_system.py line 409): score < 60, or
score < 70 together with a duration more than 1 h below the personal need. -/
def isBadNight (need : ℚ) (s : SleepSession) : Bool :=
  badNightScore s < 60 ∨ (badNightScore s < 70 ∧ 1 < need - durationHours s)

/-- The trailing streak of bad nights counted by
`_check_consecutive_bad_nights` (alert_system.py lines 390-414): the walk
runs backward over the last 7 records and stops at the first non-bad night. -/
def consecutiveBadNights (need : ℚ) (sleep : List SleepSession) : ℕ :=
  (((sleep.drop (sleep.length - 7)).reverse).takeWhile (isBadNight need)).length

end AlertSystem

/-! ## illness_detection.py — `IllnessDetector`

Source: `src/oura_mcp/utils/illness_detection.py`. -/

namespace Illness

/-- The readiness contributors read by the illness detector. -/
structure Contributors where
  body_temperature : Option ℚ
  hrv_balance : Option ℚ
  resting_heart_rate : Option ℚ
deriving DecidableEq

/-- One daily readiness record as read by the illness detector. -/
structure ReadinessRecord where
  score : Option ℚ
  contributors : Contributors
deriving DecidableEq

/-- One sleep session as read by the illness detector (only `breath_average`
is consulted). -/
structure SleepRecord where
  breath_average : Option ℚ
deriving DecidableEq

/-- An illness warning signal (illness_detection.py lines 22-52).  The
constructor stores `datetime.now()` in `self.timestamp` (line 40); the model
takes the clock reading as an explicit rational parameter of the detection
entry point.  The human-readable `message` string, a pure function of the
numeric fields, is omitted. -/
structure IllnessSignal where
  signal_type : String
  severity : ℚ
  value : ℚ
  baseline : ℚ
  deviation : ℚ
  timestamp : ℚ
deriving DecidableEq

/-- `IllnessRiskLevel` enum (illness_detection.py lines 14-19). -/
inductive IllnessRiskLevel where
  | normal
  | elevated
  | high
  | critical
deriving DecidableEq

/-- The baselines dictionary built by `_calculate_baselines` (lines 180-242):
a per-channel mean, present only when at least one sample exists.  The
`*_std` entries computed alongside each mean are never read by any downstream
check and are omitted. -/
structure IllnessBaselines where
  temperature : Option ℚ
  hrv : Option ℚ
  resting_hr : Option ℚ
  respiratory_rate : Option ℚ
  recovery_score : Option ℚ
deriving DecidableEq

/-- Extract the `body_temperature` contributor of every day that carries it. -/
def tempValues (l : List ReadinessRecord) : List ℚ :=
  l.filterMap (fun d => d.contributors.body_temperature)

/-- Extract the `hrv_balance` contributor of every day that carries it. -/
def hrvValues (l : List ReadinessRecord) : List ℚ :=
  l.filterMap (fun d => d.contributors.hrv_balance)

/-- Extract the `resting_heart_rate` contributor of every day that carries it. -/
def rhrValues (l : List ReadinessRecord) : List ℚ :=
  l.filterMap (fun d => d.contributors.resting_heart_rate)

/-- Extract `breath_average` of every sleep session that carries it. -/
def respValues (l : List SleepRecord) : List ℚ :=
  l.filterMap (fun s => s.breath_average)

/-- Extract the overall readiness score of every day that carries it. -/
def scoreValues (l : List ReadinessRecord) : List ℚ :=
  l.filterMap (fun d => d.score)

/-- A baseline entry: the mean when at least one sample exists, absent
otherwise. -/
def optBaseline (vals : List ℚ) : Option ℚ :=
  if vals = [] then none else some (ratMean vals)

/-- `_calculate_baselines` (illness_detection.py lines 180-242), means only.
The respiratory block runs only when the sleep list is non-empty (line 225);
for an empty list the guarded and unguarded forms agree, the guard is kept for
fidelity. -/
def calcBaselines (readiness : List ReadinessRecord) (sleep : List SleepRecord) :
    IllnessBaselines where
  temperature := optBaseline (tempValues readiness)
  hrv := optBaseline (hrvValues readiness)
  resting_hr := optBaseline (rhrValues readiness)
  respiratory_rate := if sleep = [] then none else optBaseline (respValues sleep)
  recovery_score := optBaseline (scoreValues readiness)

/-- `_check_temperature` (lines 244-289): fires on a drop of the mean recent
temperature score at least 10 points below baseline; severity ladder
-30 / -20 / -10 ↦ 1.0 / 0.7 / 0.4. -/
def checkTemperature (now : ℚ) (recent : List ReadinessRecord)
    (b : IllnessBaselines) : Option IllnessSignal :=
  match b.temperature with
  | none => none
  | some base =>
    let recents := tempValues recent
    if recents = [] then none
    else
      let avg := ratMean recents
      let dev := avg - base
      let severity : ℚ :=
        if dev ≤ -30 then 1 else if dev ≤ -20 then 0.7 else if dev ≤ -10 then 0.4 else 0
      if 0 < severity then some ⟨"temperature", severity, avg, base, dev, now⟩
      else none

/-- `_check_hrv` (lines 291-335): fires on a percentage drop of the mean
recent HRV balance; percent change is forced to 0 when the baseline is not
positive; severity ladder -35% / -25% / -15% ↦ 1.0 / 0.7 / 0.4. -/
def checkHrv (now : ℚ) (recent : List ReadinessRecord)
    (b : IllnessBaselines) : Option IllnessSignal :=
  match b.hrv with
  | none => none
  | some base =>
    let recents := hrvValues recent
    if recents = [] then none
    else
      let avg := ratMean recents
      let dev := avg - base
      let percentChange := if 0 < base then dev / base * 100 else 0
      let severity : ℚ :=
        if percentChange ≤ -35 then 1
        else if percentChange ≤ -25 then 0.7
        else if percentChange ≤ -15 then 0.4
        else 0
      if 0 < severity then some ⟨"hrv", severity, avg, base, dev, now⟩
      else none

/-- `_check_resting_hr` (lines 337-380): fires on an increase of the mean
recent resting HR; severity ladder +12 / +8 / +5 bpm ↦ 1.0 / 0.7 / 0.4. -/
def checkRestingHr (now : ℚ) (recent : List ReadinessRecord)
    (b : IllnessBaselines) : Option IllnessSignal :=
  match b.resting_hr with
  | none => none
  | some base =>
    let recents := rhrValues recent
    if recents = [] then none
    else
      let avg := ratMean recents
      let dev := avg - base
      let severity : ℚ :=
        if 12 ≤ dev then 1 else if 8 ≤ dev then 0.7 else if 5 ≤ dev then 0.4 else 0
      if 0 < severity then some ⟨"resting_hr", severity, avg, base, dev, now⟩
      else none

/-- `_check_respiratory_rate` (lines 382-424): skipped when the baseline is
absent or the recent sleep list is empty; severity ladder +5 / +3 / +2
breaths/min ↦ 1.0 / 0.7 / 0.4. -/
def checkRespiratoryRate (now : ℚ) (recent : List SleepRecord)
    (b : IllnessBaselines) : Option IllnessSignal :=
  match b.respiratory_rate with
  | none => none
  | some base =>
    if recent = [] then none
    else
      let recents := respValues recent
      if recents = [] then none
      else
        let avg := ratMean recents
        let dev := avg - base
        let severity : ℚ :=
          if 5 ≤ dev then 1 else if 3 ≤ dev then 0.7 else if 2 ≤ dev then 0.4 else 0
        if 0 < severity then some ⟨"respiratory_rate", severity, avg, base, dev, now⟩
        else none

/-- `_check_recovery_score` (lines 426-464): fires on a drop of the mean
recent readiness score; severity ladder -35 / -25 / -15 ↦ 1.0 / 0.7 / 0.4. -/
def checkRecoveryScore (now : ℚ) (recent : List ReadinessRecord)
    (b : IllnessBaselines) : Option IllnessSignal :=
  match b.recovery_score with
  | none => none
  | some base =>
    let recents := scoreValues recent
    if recents = [] then none
    else
      let avg := ratMean recents
      let dev := avg - base
      let severity : ℚ :=
        if dev ≤ -35 then 1 else if dev ≤ -25 then 0.7 else if dev ≤ -15 then 0.4 else 0
      if 0 < severity then some ⟨"recovery", severity, avg, base, dev, now⟩
      else none

/-- `SIGNAL_WEIGHTS.get(signal_type, 0.1)` (lines 88-94 and 475): the fixed
catalogue weights with default 0.1 for an unknown type. -/
def catalogWeight (ty : String) : ℚ :=
  if ty = "temperature" then 0.35
  else if ty = "hrv" then 0.25
  else if ty = "resting_hr" then 0.20
  else if ty = "respiratory_rate" then 0.10
  else if ty = "recovery" then 0.10
  else 0.10

/-- The running `weighted_score` of `_calculate_risk_score` (lines 471-477). -/
def weightedSeveritySum (l : List IllnessSignal) : ℚ :=
  (l.map (fun s => s.severity * catalogWeight s.signal_type)).sum

/-- The running `total_weight` of `_calculate_risk_score` (lines 471-477). -/
def totalWeight (l : List IllnessSignal) : ℚ :=
  (l.map (fun s => catalogWeight s.signal_type)).sum

/-- `_calculate_risk_score` (lines 466-482): 0 for no signals, else the
severity-weighted mean over the weights of the present signals, scaled
to 0-100 (with a defensive 0 when the total weight is not positive). -/
def calculateRiskScore (l : List IllnessSignal) : ℚ :=
  if l = [] then 0
  else if 0 < totalWeight l then weightedSeveritySum l / totalWeight l * 100
  else 0

/-- `_determine_risk_level` (lines 484-493). -/
def determineRiskLevel (score : ℚ) : IllnessRiskLevel :=
  if 70 ≤ score then .critical
  else if 50 ≤ score then .high
  else if 30 ≤ score then .elevated
  else .normal

/-- Membership of a channel type in the fired set
(`signal_types = {s.signal_type for s in signals}`, line 500). -/
def fired (l : List IllnessSignal) (ty : String) : Bool :=
  l.any (fun s => s.signal_type = ty)

/-- `_detect_illness_pattern` (lines 495-518): a priority-ordered decision
table over the set of fired channel types, first match wins. -/
def detectIllnessPattern (l : List IllnessSignal) : Option String :=
  if l = [] then none
  else if fired l "temperature" && fired l "hrv" && fired l "resting_hr" then
    some "classic_infection"
  else if fired l "temperature" && fired l "respiratory_rate" then
    some "respiratory_infection"
  else if fired l "hrv" && fired l "resting_hr" && !(fired l "temperature") then
    some "stress_overtraining"
  else if fired l "temperature" && fired l "recovery" then
    some "early_infection"
  else some "unknown_pattern"

/-- `_calculate_confidence` (lines 520-534). -/
def calculateConfidence (l : List IllnessSignal) : ℚ :=
  if l = [] then 0
  else
    min ((min ((l.length : ℚ) / 3) 1 * 0.6 + ratMean (l.map (fun s => s.severity)) * 0.4) * 100)
      100

/-- The result dictionary of `detect_illness_signals`: the insufficient-data
shape (lines 120-126, which also carries a fixed error string, omitted) or the
full shape (lines 170-178; the recommendation string, a pure function of risk
level and pattern, is omitted). -/
inductive DetectionOutcome where
  | insufficientData (risk_level : IllnessRiskLevel) (risk_score : ℚ)
      (signals : List IllnessSignal)
  | ok (risk_level : IllnessRiskLevel) (risk_score : ℚ)
      (signals : List IllnessSignal) (baselines : IllnessBaselines)
      (pattern : Option String) (confidence : ℚ)
deriving DecidableEq

/-- The risk level carried by either result shape. -/
def DetectionOutcome.riskLevel : DetectionOutcome → IllnessRiskLevel
  | .insufficientData lv _ _ => lv
  | .ok lv _ _ _ _ _ => lv

/-- The risk score carried by either result shape. -/
def DetectionOutcome.riskScore : DetectionOutcome → ℚ
  | .insufficientData _ sc _ => sc
  | .ok _ sc _ _ _ _ => sc

/-- The signal list carried by either result shape. -/
def DetectionOutcome.signals : DetectionOutcome → List IllnessSignal
  | .insufficientData _ _ sg => sg
  | .ok _ _ sg _ _ _ => sg

/-- `detect_illness_signals` (lines 105-178).  `now` is the clock reading that
the source takes implicitly via `datetime.now()` inside the `IllnessSignal`
constructor.  Python slices `data[:-3]` and `data[-3:]` become `take (n-3)`
and `drop (n-3)`; `sleep_data[:-3] if sleep_data else []` keeps its guard. -/
def detectIllnessSignals (now : ℚ) (readiness : List ReadinessRecord)
    (sleep : List SleepRecord) : DetectionOutcome :=
  if readiness = [] ∨ readiness.length < 7 then
    .insufficientData .normal 0 []
  else
    let baselines := calcBaselines (readiness.take (readiness.length - 3))
      (if sleep = [] then [] else sleep.take (sleep.length - 3))
    let recentR := readiness.drop (readiness.length - 3)
    let recentS := if sleep = [] then [] else sleep.drop (sleep.length - 3)
    let signals :=
      (checkTemperature now recentR baselines).toList ++
      (checkHrv now recentR baselines).toList ++
      (checkRestingHr now recentR baselines).toList ++
      (checkRespiratoryRate now recentS baselines).toList ++
      (checkRecoveryScore now recentR baselines).toList
    let riskScore := calculateRiskScore signals
    .ok (determineRiskLevel riskScore) riskScore signals baselines
      (detectIllnessPattern signals) (calculateConfidence signals)

/-- Replace a signal's construction timestamp. -/
def retimeSignal (t : ℚ) (s : IllnessSignal) : IllnessSignal :=
  { s with timestamp := t }

/-- Replace every signal timestamp inside a detection result. -/
def DetectionOutcome.retime (t : ℚ) : DetectionOutcome → DetectionOutcome
  | .insufficientData lv sc sg => .insufficientData lv sc (sg.map (retimeSignal t))
  | .ok lv sc sg bl pat conf => .ok lv sc (sg.map (retimeSignal t)) bl pat conf

/-- A concrete seven-day readiness window: body-temperature score 90 on the
four baseline days and 50 on the three recent days, all other fields absent. -/
def sampleReadiness : List ReadinessRecord :=
  [⟨none, ⟨some 90, none, none⟩⟩, ⟨none, ⟨some 90, none, none⟩⟩,
   ⟨none, ⟨some 90, none, none⟩⟩, ⟨none, ⟨some 90, none, none⟩⟩,
   ⟨none, ⟨some 50, none, none⟩⟩, ⟨none, ⟨some 50, none, none⟩⟩,
   ⟨none, ⟨some 50, none, none⟩⟩]

/-- A concrete signal list whose fired channel set is exactly
{temperature, hrv, resting_hr, respiratory_rate}. -/
def patternSample : List IllnessSignal :=
  [⟨"temperature", 1, 0, 0, 0, 0⟩, ⟨"hrv", 0.7, 0, 0, 0, 0⟩,
   ⟨"resting_hr", 0.4, 0, 0, 0, 0⟩, ⟨"respiratory_rate", 1, 0, 0, 0, 0⟩]

end Illness

/-! ## baselines.py — `BaselineManager`

Source: `src/oura_mcp/utils/baselines.py`.  This module computes a genuine
standard deviation (`statistics.stdev`), so it is embedded over ℝ. -/

namespace Baselines

/-- Arithmetic mean of a list of reals (`statistics.mean`). -/
noncomputable def realMean (l : List ℝ) : ℝ := l.sum / l.length

/-- The sample variance with Bessel correction used by `statistics.stdev`. -/
noncomputable def sampleVariance (l : List ℝ) : ℝ :=
  (l.map (fun x => (x - realMean l) ^ 2)).sum / ((l.length : ℝ) - 1)

/-- `statistics.stdev`: the square root of the sample variance. -/
noncomputable def stdev (l : List ℝ) : ℝ := Real.sqrt (sampleVariance l)

/-- The baseline statistics dictionary of `calculate_baseline`
(baselines.py lines 20-50). -/
structure Baseline where
  mean : ℝ
  std_dev : ℝ
  minv : ℝ
  maxv : ℝ
  count : ℕ

/-- `calculate_baseline` (baselines.py lines 20-50): an empty value list
yields an all-zero baseline; otherwise mean / sample stdev (0 for a single
sample) / min / max / count.  The `min`/`max` fields are spelled
`minv`/`maxv` to avoid clashing with the Lean functions. -/
noncomputable def calculate_baseline (values : List ℝ) : Baseline :=
  match values with
  | [] => ⟨0, 0, 0, 0, 0⟩
  | v :: vs =>
    { mean := realMean (v :: vs)
      std_dev := if 1 < (v :: vs).length then stdev (v :: vs) else 0
      minv := vs.foldl min v
      maxv := vs.foldl max v
      count := (v :: vs).length }

/-- Python `round(x, ndigits)` on an exact value: round half to even. -/
noncomputable def pyRoundInt (x : ℝ) : ℤ :=
  if Int.fract x = 1 / 2 then (if Even ⌊x⌋ then ⌊x⌋ else ⌊x⌋ + 1)
  else round x

/-- Python `round(x, n)`: scale by `10^n`, round half to even, scale back. -/
noncomputable def pyRound (x : ℝ) (n : ℕ) : ℝ := (pyRoundInt (x * 10 ^ n) : ℝ) / 10 ^ n

/-- The standard-deviation-normalized deviation computed inside
`interpret_deviation` (baselines.py line 197), forced to 0 when the stored
standard deviation is 0. -/
noncomputable def devStd (current : ℝ) (b : Baseline) : ℝ :=
  if b.std_dev ≠ 0 then (current - b.mean) / b.std_dev else 0

/-- The interpretation dictionary returned by `interpret_deviation`
(baselines.py lines 168-221).  The `baseline_range` display string of the
main branch is omitted; `baseline_mean` is 0 in the zero-count branch where
the source omits the key (it is never read there). -/
structure DeviationResult where
  deviation_absolute : ℝ
  deviation_percentage : ℝ
  deviation_std : ℝ
  interpretation : String
  status : String
  baseline_mean : ℝ

/-- `interpret_deviation` (baselines.py lines 168-221): a zero-count baseline
yields status "unknown" with all deviation fields 0; otherwise the absolute /
percentage / std-unit deviations (percentage forced to 0 when the mean is 0,
std-units forced to 0 when the stdev is 0) with a status chosen from
|std-units| by the 0.5 / 1.0 / 1.5 ladder.  The reported numeric fields are
rounded as in the source; the status is chosen from the unrounded value. -/
noncomputable def interpret_deviation (current : ℝ) (b : Baseline) : DeviationResult :=
  if b.count = 0 then
    { deviation_absolute := 0
      deviation_percentage := 0
      deviation_std := 0
      interpretation := "No baseline data available"
      status := "unknown"
      baseline_mean := 0 }
  else
    let deviationAbs := current - b.mean
    let deviationPct := if b.mean ≠ 0 then deviationAbs / b.mean * 100 else 0
    let deviationStd := devStd current b
    { deviation_absolute := pyRound deviationAbs 1
      deviation_percentage := pyRound deviationPct 1
      deviation_std := pyRound deviationStd 2
      interpretation :=
        if |deviationStd| < 0.5 then "within normal range"
        else if |deviationStd| < 1 then
          "slightly " ++ (if 0 < deviationAbs then "above" else "below") ++ " normal"
        else if |deviationStd| < 1.5 then
          "moderately " ++ (if 0 < deviationAbs then "elevated" else "decreased")
        else
          "significantly " ++ (if 0 < deviationAbs then "elevated" else "decreased")
      status :=
        if |deviationStd| < 0.5 then "normal"
        else if |deviationStd| < 1 then "slightly_abnormal"
        else if |deviationStd| < 1.5 then "moderately_abnormal"
        else "highly_abnormal"
      baseline_mean := pyRound b.mean 1 }

/-- Severity order of the four deviation statuses, for stating monotonicity:
normal < slightly_abnormal < moderately_abnormal < highly_abnormal. -/
def statusRank (st : String) : ℕ :=
  if st = "normal" then 0
  else if st = "slightly_abnormal" then 1
  else if st = "moderately_abnormal" then 2
  else 3

/-- A value list entry passed through Python truthiness: `None` and `0` are
both skipped (`if record.get(key):`). -/
noncomputable def truthy (o : Option ℝ) : Option ℝ :=
  o.bind (fun v => if v = 0 then none else some v)

/-- The sleep contributors extracted by `calculate_sleep_baselines`. -/
structure SleepContributors where
  total_sleep : Option ℝ
  deep_sleep : Option ℝ
  rem_sleep : Option ℝ
  efficiency : Option ℝ
  restfulness : Option ℝ
  latency : Option ℝ
  timing : Option ℝ

/-- One daily sleep record as read by `calculate_sleep_baselines`. -/
structure SleepDaily where
  score : Option ℝ
  contributors : SleepContributors

/-- Overall sleep scores, truthiness-filtered
(`if record.get("score"):`, baselines.py line 81): a record whose score is
absent or 0 contributes nothing. -/
noncomputable def sleepScoreValues (l : List SleepDaily) : List ℝ :=
  l.filterMap (fun r => truthy r.score)

/-- A sleep contributor column: every record whose contributors mapping
carries the key (baselines.py lines 85-88). -/
noncomputable def sleepContribValues (l : List SleepDaily) (f : SleepContributors → Option ℝ) :
    List ℝ :=
  l.filterMap (fun r => f r.contributors)

/-- A baseline for a metric, present only when it has at least one sample
(`if values: baselines[metric] = ...`). -/
noncomputable def mkOptBaseline (vals : List ℝ) : Option Baseline :=
  if vals = [] then none else some (calculate_baseline vals)

/-- The mapping returned by `calculate_sleep_baselines`
(baselines.py lines 52-95). -/
structure SleepBaselines where
  sleep_score : Option Baseline
  total_sleep : Option Baseline
  deep_sleep : Option Baseline
  rem_sleep : Option Baseline
  efficiency : Option Baseline
  restfulness : Option Baseline
  latency : Option Baseline
  timing : Option Baseline

/-- `calculate_sleep_baselines` (baselines.py lines 52-95). -/
noncomputable def calculate_sleep_baselines (l : List SleepDaily) : SleepBaselines where
  sleep_score := mkOptBaseline (sleepScoreValues l)
  total_sleep := mkOptBaseline (sleepContribValues l (fun c => c.total_sleep))
  deep_sleep := mkOptBaseline (sleepContribValues l (fun c => c.deep_sleep))
  rem_sleep := mkOptBaseline (sleepContribValues l (fun c => c.rem_sleep))
  efficiency := mkOptBaseline (sleepContribValues l (fun c => c.efficiency))
  restfulness := mkOptBaseline (sleepContribValues l (fun c => c.restfulness))
  latency := mkOptBaseline (sleepContribValues l (fun c => c.latency))
  timing := mkOptBaseline (sleepContribValues l (fun c => c.timing))

/-- The readiness contributors extracted by `calculate_readiness_baselines`. -/
structure ReadinessContributors where
  activity_balance : Option ℝ
  body_temperature : Option ℝ
  hrv_balance : Option ℝ
  previous_day_activity : Option ℝ
  previous_night : Option ℝ
  recovery_index : Option ℝ
  resting_heart_rate : Option ℝ
  sleep_balance : Option ℝ
  sleep_regularity : Option ℝ

/-- One daily readiness record as read by `calculate_readiness_baselines` and
the readiness anomaly detector. -/
structure ReadinessDaily where
  score : Option ℝ
  contributors : ReadinessContributors

/-- Overall readiness scores, truthiness-filtered (baselines.py line 119). -/
noncomputable def readinessScoreValues (l : List ReadinessDaily) : List ℝ :=
  l.filterMap (fun r => truthy r.score)

/-- A readiness contributor column: key present and value not `None`
(baselines.py lines 124-129); `Option` covers both the absent key and the
stored `None`. -/
noncomputable def readinessContribValues (l : List ReadinessDaily)
    (f : ReadinessContributors → Option ℝ) : List ℝ :=
  l.filterMap (fun r => f r.contributors)

/-- The mapping returned by `calculate_readiness_baselines`
(baselines.py lines 97-136). -/
structure ReadinessBaselines where
  readiness_score : Option Baseline
  activity_balance : Option Baseline
  body_temperature : Option Baseline
  hrv_balance : Option Baseline
  previous_day_activity : Option Baseline
  previous_night : Option Baseline
  recovery_index : Option Baseline
  resting_heart_rate : Option Baseline
  sleep_balance : Option Baseline
  sleep_regularity : Option Baseline

/-- `calculate_readiness_baselines` (baselines.py lines 97-136). -/
noncomputable def calculate_readiness_baselines (l : List ReadinessDaily) :
    ReadinessBaselines where
  readiness_score := mkOptBaseline (readinessScoreValues l)
  activity_balance := mkOptBaseline (readinessContribValues l (fun c => c.activity_balance))
  body_temperature := mkOptBaseline (readinessContribValues l (fun c => c.body_temperature))
  hrv_balance := mkOptBaseline (readinessContribValues l (fun c => c.hrv_balance))
  previous_day_activity :=
    mkOptBaseline (readinessContribValues l (fun c => c.previous_day_activity))
  previous_night := mkOptBaseline (readinessContribValues l (fun c => c.previous_night))
  recovery_index := mkOptBaseline (readinessContribValues l (fun c => c.recovery_index))
  resting_heart_rate :=
    mkOptBaseline (readinessContribValues l (fun c => c.resting_heart_rate))
  sleep_balance := mkOptBaseline (readinessContribValues l (fun c => c.sleep_balance))
  sleep_regularity := mkOptBaseline (readinessContribValues l (fun c => c.sleep_regularity))

/-- One daily activity record as read by `calculate_activity_baselines`. -/
structure ActivityDaily where
  score : Option ℝ
  steps : Option ℝ
  total_calories : Option ℝ
  active_calories : Option ℝ

/-- An activity column, truthiness-filtered (baselines.py lines 153-160:
`if record.get(key):` for each of the four fields). -/
noncomputable def activityValues (l : List ActivityDaily) (f : ActivityDaily → Option ℝ) :
    List ℝ :=
  l.filterMap (fun r => truthy (f r))

/-- The mapping returned by `calculate_activity_baselines`
(baselines.py lines 138-166). -/
structure ActivityBaselines where
  activity_score : Option Baseline
  steps : Option Baseline
  total_calories : Option Baseline
  active_calories : Option Baseline

/-- `calculate_activity_baselines` (baselines.py lines 138-166). -/
noncomputable def calculate_activity_baselines (l : List ActivityDaily) :
    ActivityBaselines where
  activity_score := mkOptBaseline (activityValues l (fun r => r.score))
  steps := mkOptBaseline (activityValues l (fun r => r.steps))
  total_calories := mkOptBaseline (activityValues l (fun r => r.total_calories))
  active_calories := mkOptBaseline (activityValues l (fun r => r.active_calories))

/-- Map a stored 0 to an absent value: since presence is tested by Python
truthiness, a zero value and an absent value are indistinguishable to the
baseline extractors. -/
noncomputable def zeroToNone (o : Option ℝ) : Option ℝ :=
  if o = some 0 then none else o

/-- Erase a zero overall score from a sleep record. -/
noncomputable def eraseZeroScoreSleep (r : SleepDaily) : SleepDaily :=
  { r with score := zeroToNone r.score }

/-- Erase a zero overall score from a readiness record. -/
noncomputable def eraseZeroScoreReadiness (r : ReadinessDaily) : ReadinessDaily :=
  { r with score := zeroToNone r.score }

/-- Erase every zero field from an activity record. -/
noncomputable def eraseZeroActivity (r : ActivityDaily) : ActivityDaily :=
  ⟨zeroToNone r.score, zeroToNone r.steps, zeroToNone r.total_calories,
   zeroToNone r.active_calories⟩

end Baselines

/-! ## anomalies.py — `AnomalyDetector`

Source: `src/oura_mcp/utils/anomalies.py`. -/

namespace Anomalies

open Baselines

/-- One anomaly dictionary.  Fields that a given block does not put into its
dictionary are `none`; the `type` key is spelled `anomaly_type`; the
free-form `message` string is omitted. -/
structure Anomaly where
  metric : String
  anomaly_type : String
  severity : String
  current_value : ℝ
  baseline_mean : Option ℝ
  deviation : Option ℝ
  deviation_pct : Option ℝ
  possible_causes : Option (List String)

/-- The fixed cause list of the deep-sleep drop anomaly
(anomalies.py lines 87-94). -/
def deepSleepCauses : List String :=
  ["Stress or anxiety", "Alcohol consumption", "Late meals or caffeine",
   "Environmental factors (noise, temperature)",
   "Sleep apnea or breathing issues", "Illness or inflammation"]

/-- The fixed cause list of the restfulness anomaly
(anomalies.py lines 115-121). -/
def restfulnessCauses : List String :=
  ["Stress or worry", "Uncomfortable sleeping environment",
   "Sleep apnea events", "Pain or discomfort", "Caffeine or stimulants"]

/-- The fixed cause list of the low-HRV anomaly (anomalies.py lines 156-163). -/
def lowHrvCauses : List String :=
  ["Accumulated fatigue", "Stress (physical or mental)", "Illness onset",
   "Overtraining", "Poor sleep quality", "Dehydration"]

/-- The fixed cause list of the body-temperature anomaly
(anomalies.py lines 176-181). -/
def tempDeviationCauses : List String :=
  ["Insufficient recovery", "Hormonal changes", "Possible illness",
   "Overtraining"]

/-- The overall-score block of `detect_sleep_anomalies`
(anomalies.py lines 45-64).  Note `current_sleep.get("score", 0)` (line 46):
a record with no overall score is scored as 0, not skipped. -/
noncomputable def sleepScoreAnomalies (current : SleepDaily)
    (baselines : SleepBaselines) : List Anomaly :=
  let currentScore := current.score.getD 0
  match baselines.sleep_score with
  | none => []
  | some b =>
    let interp := interpret_deviation currentScore b
    if interp.status = "moderately_abnormal" ∨ interp.status = "highly_abnormal" then
      [{ metric := "sleep_score"
         anomaly_type := "significant_deviation"
         severity := if interp.status = "highly_abnormal" then "high" else "medium"
         current_value := currentScore
         baseline_mean := some interp.baseline_mean
         deviation := some interp.deviation_absolute
         deviation_pct := some interp.deviation_percentage
         possible_causes := none }]
    else []

/-- The deep-sleep block of `detect_sleep_anomalies`
(anomalies.py lines 69-95): fires when the rounded percentage deviation is
below -30. -/
noncomputable def deepSleepAnomalies (current : SleepDaily)
    (baselines : SleepBaselines) : List Anomaly :=
  match current.contributors.deep_sleep, baselines.deep_sleep with
  | some ds, some b =>
    let interp := interpret_deviation ds b
    if interp.deviation_percentage < -30 then
      [{ metric := "deep_sleep"
         anomaly_type := "significant_drop"
         severity := "high"
         current_value := ds
         baseline_mean := some interp.baseline_mean
         deviation := some interp.deviation_absolute
         deviation_pct := some interp.deviation_percentage
         possible_causes := some deepSleepCauses }]
    else []
  | _, _ => []

/-- The restfulness block of `detect_sleep_anomalies`
(anomalies.py lines 98-122): fires when the rounded percentage deviation is
below -20. -/
noncomputable def restfulnessAnomalies (current : SleepDaily)
    (baselines : SleepBaselines) : List Anomaly :=
  match current.contributors.restfulness, baselines.restfulness with
  | some rf, some b =>
    let interp := interpret_deviation rf b
    if interp.deviation_percentage < -20 then
      [{ metric := "restfulness"
         anomaly_type := "increased_movement"
         severity := "medium"
         current_value := rf
         baseline_mean := some interp.baseline_mean
         deviation := some interp.deviation_absolute
         deviation_pct := some interp.deviation_percentage
         possible_causes := some restfulnessCauses }]
    else []
  | _, _ => []

/-- `detect_sleep_anomalies` (anomalies.py lines 25-124): the three
independent blocks append to one list in source order. -/
noncomputable def detect_sleep_anomalies (current : SleepDaily)
    (recent : List SleepDaily) : List Anomaly :=
  let baselines := calculate_sleep_baselines recent
  sleepScoreAnomalies current baselines ++ deepSleepAnomalies current baselines ++
    restfulnessAnomalies current baselines

/-- The anomaly dictionary built by the HRV block of
`detect_readiness_anomalies` (anomalies.py lines 148-164). -/
noncomputable def lowHrvAnomaly (hrv : ℝ) (interp : DeviationResult) : Anomaly where
  metric := "hrv_balance"
  anomaly_type := "low_hrv"
  severity := if hrv < 30 then "high" else "medium"
  current_value := hrv
  baseline_mean := some interp.baseline_mean
  deviation := some interp.deviation_absolute
  deviation_pct := none
  possible_causes := some lowHrvCauses

/-- The HRV block of `detect_readiness_anomalies`
(anomalies.py lines 139-164): requires the contributor to be present AND the
recent window to yield an hrv_balance baseline; fires iff the contributor is
below 50, with severity high iff below 30. -/
noncomputable def hrvAnomalies (current : ReadinessDaily)
    (baselines : ReadinessBaselines) : List Anomaly :=
  match current.contributors.hrv_balance, baselines.hrv_balance with
  | some hrv, some b =>
    if hrv < 50 then [lowHrvAnomaly hrv (interpret_deviation hrv b)]
    else []
  | _, _ => []

/-- The body-temperature block of `detect_readiness_anomalies`
(anomalies.py lines 167-182): fixed absolute threshold 85, no baseline. -/
noncomputable def tempAnomalies (current : ReadinessDaily) : List Anomaly :=
  match current.contributors.body_temperature with
  | some temp =>
    if temp < 85 then
      [{ metric := "body_temperature"
         anomaly_type := "temperature_deviation"
         severity := "medium"
         current_value := temp
         baseline_mean := none
         deviation := none
         deviation_pct := none
         possible_causes := some tempDeviationCauses }]
    else []
  | none => []

/-- `detect_readiness_anomalies` (anomalies.py lines 126-184). -/
noncomputable def detect_readiness_anomalies (current : ReadinessDaily)
    (recent : List ReadinessDaily) : List Anomaly :=
  let baselines := calculate_readiness_baselines recent
  hrvAnomalies current baselines ++ tempAnomalies current

/-- A record with no overall score and no contributors. -/
def noScoreNight : SleepDaily := ⟨none, ⟨none, none, none, none, none, none, none⟩⟩

/-- Three plain nights with overall scores 60, 70, 80 and no contributors. -/
def recentWindow : List SleepDaily :=
  [⟨some 60, ⟨none, none, none, none, none, none, none⟩⟩,
   ⟨some 70, ⟨none, none, none, none, none, none, none⟩⟩,
   ⟨some 80, ⟨none, none, none, none, none, none, none⟩⟩]

/-- A readiness day whose only present contributor is hrv_balance = 40. -/
def lowHrvDay : ReadinessDaily :=
  ⟨none, ⟨none, none, some 40, none, none, none, none, none, none⟩⟩

end Anomalies

/-! ## alert_system.py — the full `AlertSystem.check_all_alerts`

Source: `src/oura_mcp/utils/alert_system.py`.  The eleven rule functions and
the severity sort, embedded over ℝ because the sleep-consistency rule takes a
genuine standard deviation of the bedtimes.  The `now` parameter is the clock
reading that the source takes implicitly via `datetime.now()` inside
`HealthAlert.__init__` (alert_system.py line 55).  The `lookback_days`
parameter of `check_all_alerts` is never read by its body and is omitted. -/

namespace Alerts

open Baselines
open scoped Classical

/-- One sleep record as read by the alert rules.  `bedtime` is the parsed
clock time (hour, minute) of `bedtime_start`; `none` models both an absent
key and an unparseable string (the `except` branch at alert_system.py
lines 357-358) — parsing itself belongs to the deserialization boundary. -/
structure SleepRecord where
  score : Option ℝ
  total_sleep_duration : Option ℝ
  efficiency : Option ℝ
  bedtime : Option (ℕ × ℕ)

/-- The readiness contributors read by the alert rules. -/
structure ReadinessContrib where
  hrv_balance : Option ℝ
  resting_heart_rate : Option ℝ

/-- One readiness record as read by the alert rules. -/
structure ReadinessRecord where
  score : Option ℝ
  contributors : ReadinessContrib

/-- One activity record as read by the alert rules. -/
structure ActivityRecord where
  steps : Option ℝ
  high_activity_time : Option ℝ

/-- `AlertSeverity` enum (alert_system.py lines 14-18). -/
inductive AlertSeverity where
  | info
  | warning
  | critical
deriving DecidableEq

/-- `AlertCategory` enum (alert_system.py lines 21-32). -/
inductive AlertCategory where
  | sleep_quality
  | sleep_duration
  | sleep_debt
  | recovery
  | overtraining
  | hrv
  | resting_hr
  | consistency
  | activity
  | trend
deriving DecidableEq

/-- A health alert (alert_system.py lines 35-68).  The constructor stores
`datetime.now()` in `self.timestamp` (line 55); the model takes the clock
reading as an explicit parameter.  The title / message / recommendation
strings, pure functions of the rule and its numeric values, are omitted. -/
structure HealthAlert where
  category : AlertCategory
  severity : AlertSeverity
  metric_value : Option ℝ
  threshold : Option ℝ
  timestamp : ℝ

/-- `personal_sleep_need if personal_sleep_need else 8.0`
(alert_system.py line 116): `None` and 0 both fall back to 8 h. -/
noncomputable def resolveNeed (o : Option ℝ) : ℝ :=
  match o with
  | none => 8
  | some n => if n = 0 then 8 else n

/-- `scale_factor = personal_sleep_need / 8.0` (alert_system.py line 117).
`_scale_thresholds` multiplies only the sleep_duration and sleep_debt table
entries by this factor and copies every other entry unchanged
(lines 122-142); the scaled values are written inline at their use sites. -/
noncomputable def scaleFactor (need : ℝ) : ℝ := need / 8

/-- `_check_sleep_quality_alerts` (alert_system.py lines 195-238): over the
last 3 records with a non-`None` score, critical when the latest score is
below 60, else warning when the mean is below 70. -/
noncomputable def check_sleep_quality_alerts (now : ℝ) (sleep : List SleepRecord) :
    List HealthAlert :=
  if sleep = [] then []
  else
    let recentScores := (sleep.drop (sleep.length - 3)).filterMap (fun s => s.score)
    if recentScores = [] then []
    else
      let avg := realMean recentScores
      let latest := recentScores.getLast?.getD 0
      if latest < 60 then
        [⟨.sleep_quality, .critical, some latest, some 60, now⟩]
      else if avg < 70 then
        [⟨.sleep_quality, .warning, some avg, some 70, now⟩]
      else []

/-- `_check_sleep_duration_alerts` (alert_system.py lines 240-283): durations
in hours of the last 3 records whose `total_sleep_duration` is truthy;
critical when the latest is below the scaled 6 h threshold, else warning when
the mean is below the scaled 7 h threshold. -/
noncomputable def check_sleep_duration_alerts (now need : ℝ)
    (sleep : List SleepRecord) : List HealthAlert :=
  if sleep = [] then []
  else
    let durations := (sleep.drop (sleep.length - 3)).filterMap (fun s =>
      match s.total_sleep_duration with
      | none => none
      | some d => if d = 0 then none else some (d / 3600))
    if durations = [] then []
    else
      let avg := realMean durations
      let latest := durations.getLast?.getD 0
      if latest < 6 * scaleFactor need then
        [⟨.sleep_duration, .critical, some latest, some (6 * scaleFactor need), now⟩]
      else if avg < 7 * scaleFactor need then
        [⟨.sleep_duration, .warning, some avg, some (7 * scaleFactor need), now⟩]
      else []

/-- `session.get("total_sleep_duration", 0) / 3600` over ℝ (alert_system.py
lines 300 and 397): a missing duration defaults to 0 seconds. -/
noncomputable def durationHoursR (s : SleepRecord) : ℝ :=
  s.total_sleep_duration.getD 0 / 3600

/-- One iteration of the sleep-debt loop (alert_system.py lines 300-307),
the ℝ twin of the accumulator verified for the sleep-debt claim. -/
noncomputable def debtStepR (debt : ℝ) (s : SleepRecord) : ℝ :=
  let deficit := 8 - durationHoursR s
  if 0 < deficit then debt + deficit
  else max 0 (debt + deficit * 0.5)

/-- `_check_sleep_debt_alerts` (alert_system.py lines 285-333). -/
noncomputable def check_sleep_debt_alerts (now need : ℝ)
    (sleep : List SleepRecord) : List HealthAlert :=
  if sleep = [] ∨ sleep.length < 3 then []
  else
    let debt := (sleep.drop (sleep.length - 7)).foldl debtStepR 0
    if 15 * scaleFactor need ≤ debt then
      [⟨.sleep_debt, .critical, some debt, some (15 * scaleFactor need), now⟩]
    else if 10 * scaleFactor need ≤ debt then
      [⟨.sleep_debt, .warning, some debt, some (10 * scaleFactor need), now⟩]
    else []

/-- A bedtime as minutes since midnight, shifted by 24 h when before noon
(alert_system.py lines 352-356). -/
def bedtimeMinutes (hm : ℕ × ℕ) : ℕ :=
  let minutes := hm.1 * 60 + hm.2
  if minutes < 12 * 60 then minutes + 24 * 60 else minutes

/-- `_check_sleep_consistency_alerts` (alert_system.py lines 335-379):
warning when the standard deviation of the last 7 bedtimes (at least 5 of
them present) exceeds 2 hours. -/
noncomputable def check_sleep_consistency_alerts (now : ℝ)
    (sleep : List SleepRecord) : List HealthAlert :=
  if sleep = [] ∨ sleep.length < 5 then []
  else
    let bedtimes : List ℕ := (sleep.drop (sleep.length - 7)).filterMap (fun s =>
      s.bedtime.map bedtimeMinutes)
    if bedtimes.length < 5 then []
    else
      let stdHours := stdev (bedtimes.map (fun m => (m : ℝ))) / 60
      if 2 < stdHours then
        [⟨.consistency, .warning, some stdHours, some 2, now⟩]
      else []

/-- The efficiency-as-score proxy over ℝ (alert_system.py lines 400-404),
twin of the rational one verified for the missing-metric claim. -/
noncomputable def proxyScoreR (s : SleepRecord) : ℝ :=
  let efficiency := s.efficiency.getD 0
  if efficiency ≠ 0 then min 100 (efficiency * 1.2) else 50

/-- The effective score of one night (alert_system.py lines 395-404). -/
noncomputable def badNightScoreR (s : SleepRecord) : ℝ :=
  match s.score with
  | none => proxyScoreR s
  | some sc => if sc = 0 then proxyScoreR s else sc

/-- The bad-night criterion (alert_system.py line 409). -/
noncomputable def isBadNightR (need : ℝ) (s : SleepRecord) : Bool :=
  badNightScoreR s < 60 ∨ (badNightScoreR s < 70 ∧ 1 < need - durationHoursR s)

/-- `_check_consecutive_bad_nights` (alert_system.py lines 381-440): the
trailing streak of bad nights among the last 7, walked backward; critical at
5, warning at 3 (the count thresholds are not scaled). -/
noncomputable def check_consecutive_bad_nights (now need : ℝ)
    (sleep : List SleepRecord) : List HealthAlert :=
  if sleep = [] ∨ sleep.length < 3 then []
  else
    let c := (((sleep.drop (sleep.length - 7)).reverse).takeWhile (isBadNightR need)).length
    if 5 ≤ c then
      [⟨.sleep_quality, .critical, some (c : ℝ), some 5, now⟩]
    else if 3 ≤ c then
      [⟨.sleep_quality, .warning, some (c : ℝ), some 3, now⟩]
    else []

/-- `_check_readiness_alerts` (alert_system.py lines 442-485): same shape as
the sleep quality rule, category RECOVERY, thresholds 60 / 70. -/
noncomputable def check_readiness_alerts (now : ℝ)
    (readiness : List ReadinessRecord) : List HealthAlert :=
  if readiness = [] then []
  else
    let recentScores := (readiness.drop (readiness.length - 3)).filterMap (fun r => r.score)
    if recentScores = [] then []
    else
      let avg := realMean recentScores
      let latest := recentScores.getLast?.getD 0
      if latest < 60 then
        [⟨.recovery, .critical, some latest, some 60, now⟩]
      else if avg < 70 then
        [⟨.recovery, .warning, some avg, some 70, now⟩]
      else []

/-- `_check_hrv_alerts` (alert_system.py lines 487-535): over the hrv_balance
contributors of the last 7 records (at least 3 present), critical when the
latest is below 50, else warning when the mean is below 60. -/
noncomputable def check_hrv_alerts (now : ℝ)
    (readiness : List ReadinessRecord) : List HealthAlert :=
  if readiness = [] ∨ readiness.length < 3 then []
  else
    let hrvs := (readiness.drop (readiness.length - 7)).filterMap
      (fun r => r.contributors.hrv_balance)
    if hrvs.length < 3 then []
    else
      let avg := realMean hrvs
      let latest := hrvs.getLast?.getD 0
      if latest < 50 then
        [⟨.hrv, .critical, some latest, some 50, now⟩]
      else if avg < 60 then
        [⟨.hrv, .warning, some avg, some 60, now⟩]
      else []

/-- `_check_resting_hr_alerts` (alert_system.py lines 537-588): baseline mean
of all but the last 3 resting-HR values against the mean of the last 3
(at least 7 present); critical at +10 bpm, warning at +7.  (The source also
assigns the unused `latest_rhr`.) -/
noncomputable def check_resting_hr_alerts (now : ℝ)
    (readiness : List ReadinessRecord) : List HealthAlert :=
  if readiness = [] ∨ readiness.length < 7 then []
  else
    let rhrs := readiness.filterMap (fun r => r.contributors.resting_heart_rate)
    if rhrs.length < 7 then []
    else
      let baseline := realMean (rhrs.take (rhrs.length - 3))
      let recent := realMean (rhrs.drop (rhrs.length - 3))
      let increase := recent - baseline
      if 10 ≤ increase then
        [⟨.resting_hr, .critical, some recent, some (baseline + 10), now⟩]
      else if 7 ≤ increase then
        [⟨.resting_hr, .warning, some recent, some (baseline + 7), now⟩]
      else []

/-- `_check_overtraining_alerts` (alert_system.py lines 590-640): readiness
scores of the last 7 (at least 5 present) against the count of the last 7
activity days with positive high-activity time
(`(a.get("high_activity_time", 0) or 0) > 0`); no threshold field is set. -/
noncomputable def check_overtraining_alerts (now : ℝ)
    (readiness : List ReadinessRecord) (activity : List ActivityRecord) :
    List HealthAlert :=
  if readiness = [] ∨ activity = [] ∨ activity.length < 7 then []
  else
    let rs := (readiness.drop (readiness.length - 7)).filterMap (fun r => r.score)
    let hi := ((activity.drop (activity.length - 7)).filter
      (fun a => decide (0 < a.high_activity_time.getD 0))).length
    if rs.length < 5 then []
    else
      let avg := realMean rs
      if avg < 70 ∧ 5 ≤ hi then
        [⟨.overtraining, .critical, some avg, none, now⟩]
      else if avg < 75 ∧ 4 ≤ hi then
        [⟨.overtraining, .warning, some avg, none, now⟩]
      else []

/-- The inactivity test of `_check_activity_alerts` (alert_system.py
lines 655-656): `day.get("steps", 0)` defaults missing steps to 0, which
counts as an inactive day. -/
noncomputable def isInactiveDay (a : ActivityRecord) : Bool :=
  decide (a.steps.getD 0 < 3000)

/-- `_check_activity_alerts` (alert_system.py lines 642-673): the trailing
streak of inactive days among the last 7, walked backward; warning at 3. -/
noncomputable def check_activity_alerts (now : ℝ)
    (activity : List ActivityRecord) : List HealthAlert :=
  if activity = [] ∨ activity.length < 3 then []
  else
    let inactive := (((activity.drop (activity.length - 7)).reverse).takeWhile
      isInactiveDay).length
    if 3 ≤ inactive then
      [⟨.activity, .warning, some (inactive : ℝ), some 3, now⟩]
    else []

/-- `_calculate_trend` (alert_system.py lines 714-733): ordinary
least-squares slope over indices 0..n-1, 0 for fewer than 3 values or a zero
denominator. -/
noncomputable def calculateTrend (values : List ℝ) : ℝ :=
  if values.length < 3 then 0
  else
    let xs : List ℝ := (List.range values.length).map (fun i => (i : ℝ))
    let xMean := realMean xs
    let yMean := realMean values
    let num := ((xs.zip values).map (fun p => (p.1 - xMean) * (p.2 - yMean))).sum
    let den := (xs.map (fun x => (x - xMean) ^ 2)).sum
    if den = 0 then 0 else num / den

/-- The score list fed to the sleep declining-trend rule (alert_system.py
line 686): `s.get("score", 0)` — a record with no score contributes 0, it is
NOT skipped. -/
noncomputable def sleepTrendScores (l : List SleepRecord) : List ℝ :=
  l.map (fun s => s.score.getD 0)

/-- The score list fed to the readiness declining-trend rule
(alert_system.py line 700): same zero default. -/
noncomputable def readinessTrendScores (l : List ReadinessRecord) : List ℝ :=
  l.map (fun r => r.score.getD 0)

/-- `_check_declining_trends` (alert_system.py lines 675-712): for sleep and
readiness independently, with at least 7 records, a slope below -3 over the
last 7 zero-defaulted scores raises a warning with no metric or threshold.
The activity argument of the source function is never read. -/
noncomputable def check_declining_trends (now : ℝ) (sleep : List SleepRecord)
    (readiness : List ReadinessRecord) (_activity : List ActivityRecord) :
    List HealthAlert :=
  (if sleep ≠ [] ∧ 7 ≤ sleep.length then
    let scores := sleepTrendScores (sleep.drop (sleep.length - 7))
    if 5 ≤ scores.length then
      if calculateTrend scores < -3 then [⟨.trend, .warning, none, none, now⟩]
      else []
    else []
  else []) ++
  (if readiness ≠ [] ∧ 7 ≤ readiness.length then
    let scores := readinessTrendScores (readiness.drop (readiness.length - 7))
    if 5 ≤ scores.length then
      if calculateTrend scores < -3 then [⟨.trend, .warning, none, none, now⟩]
      else []
    else []
  else [])

/-- The final severity sort of `check_all_alerts` (alert_system.py
lines 187-191): Python's stable sort on the three-valued key
critical ↦ 0, warning ↦ 1, info ↦ 2 is exactly the three severity classes
concatenated in input order. -/
def sortAlerts (l : List HealthAlert) : List HealthAlert :=
  l.filter (fun a => a.severity = AlertSeverity.critical) ++
  l.filter (fun a => a.severity = AlertSeverity.warning) ++
  l.filter (fun a => a.severity = AlertSeverity.info)

/-- `check_all_alerts` (alert_system.py lines 144-193): the eleven rules in
source order, then the severity sort.  `need` is the constructor's
`personal_sleep_need` argument. -/
noncomputable def check_all_alerts (now : ℝ) (need : Option ℝ)
    (sleep : List SleepRecord) (readiness : List ReadinessRecord)
    (activity : List ActivityRecord) : List HealthAlert :=
  let n := resolveNeed need
  sortAlerts (
    check_sleep_quality_alerts now sleep ++
    check_sleep_duration_alerts now n sleep ++
    check_sleep_debt_alerts now n sleep ++
    check_sleep_consistency_alerts now sleep ++
    check_consecutive_bad_nights now n sleep ++
    check_readiness_alerts now readiness ++
    check_hrv_alerts now readiness ++
    check_resting_hr_alerts now readiness ++
    check_overtraining_alerts now readiness activity ++
    check_activity_alerts now activity ++
    check_declining_trends now sleep readiness activity)

/-- Replace an alert's construction timestamp. -/
def retimeAlert (t : ℝ) (a : HealthAlert) : HealthAlert :=
  { a with timestamp := t }

/-- Replace every alert timestamp in a result list. -/
def retimeAlerts (t : ℝ) (l : List HealthAlert) : List HealthAlert :=
  l.map (retimeAlert t)

end Alerts

end OuraCore

/-! # Helper lemmas -/

open OuraCore

theorem AlertSystem.debtStep_nonneg (debt : ℚ) (s : AlertSystem.SleepSession)
    (h : 0 ≤ debt) : 0 ≤ AlertSystem.debtStep debt s := by
  unfold AlertSystem.debtStep
  dsimp only
  split
  · have : (0:ℚ) < 8 - AlertSystem.durationHours s := by assumption
    linarith
  · exact le_max_left 0 _

theorem AlertSystem.debtFoldl_nonneg (l : List AlertSystem.SleepSession)
    (x : ℚ) (hx : 0 ≤ x) : 0 ≤ l.foldl AlertSystem.debtStep x := by
  induction l generalizing x with
  | nil => simpa using hx
  | cons s t ih => exact ih (AlertSystem.debtStep x s) (AlertSystem.debtStep_nonneg x s hx)

open OuraCore.Illness

theorem checkTemperature_retime (t t' : ℚ) (r : List ReadinessRecord)
    (b : IllnessBaselines) :
    checkTemperature t r b = (checkTemperature t' r b).map (retimeSignal t) := by
  unfold checkTemperature
  cases b.temperature with
  | none => rfl
  | some base =>
    dsimp only
    split_ifs <;> rfl

theorem checkHrv_retime (t t' : ℚ) (r : List ReadinessRecord)
    (b : IllnessBaselines) :
    checkHrv t r b = (checkHrv t' r b).map (retimeSignal t) := by
  unfold checkHrv
  cases b.hrv with
  | none => rfl
  | some base =>
    dsimp only
    split_ifs <;> rfl

theorem checkRestingHr_retime (t t' : ℚ) (r : List ReadinessRecord)
    (b : IllnessBaselines) :
    checkRestingHr t r b = (checkRestingHr t' r b).map (retimeSignal t) := by
  unfold checkRestingHr
  cases b.resting_hr with
  | none => rfl
  | some base =>
    dsimp only
    split_ifs <;> rfl

theorem checkRespiratoryRate_retime (t t' : ℚ) (r : List SleepRecord)
    (b : IllnessBaselines) :
    checkRespiratoryRate t r b = (checkRespiratoryRate t' r b).map (retimeSignal t) := by
  unfold checkRespiratoryRate
  cases b.respiratory_rate with
  | none => rfl
  | some base =>
    dsimp only
    split_ifs <;> rfl

theorem checkRecoveryScore_retime (t t' : ℚ) (r : List ReadinessRecord)
    (b : IllnessBaselines) :
    checkRecoveryScore t r b = (checkRecoveryScore t' r b).map (retimeSignal t) := by
  unfold checkRecoveryScore
  cases b.recovery_score with
  | none => rfl
  | some base =>
    dsimp only
    split_ifs <;> rfl

theorem fired_retime (t : ℚ) (l : List IllnessSignal) (ty : String) :
    fired (l.map (retimeSignal t)) ty = fired l ty := by
  simp only [fired, List.any_map]
  rfl

theorem weightedSeveritySum_retime (t : ℚ) (l : List IllnessSignal) :
    weightedSeveritySum (l.map (retimeSignal t)) = weightedSeveritySum l := by
  simp only [weightedSeveritySum, List.map_map]
  rfl

theorem totalWeight_retime (t : ℚ) (l : List IllnessSignal) :
    totalWeight (l.map (retimeSignal t)) = totalWeight l := by
  simp only [totalWeight, List.map_map]
  rfl

theorem calculateRiskScore_retime (t : ℚ) (l : List IllnessSignal) :
    calculateRiskScore (l.map (retimeSignal t)) = calculateRiskScore l := by
  simp only [calculateRiskScore, List.map_eq_nil_iff, weightedSeveritySum_retime,
    totalWeight_retime]

theorem detectIllnessPattern_retime (t : ℚ) (l : List IllnessSignal) :
    detectIllnessPattern (l.map (retimeSignal t)) = detectIllnessPattern l := by
  simp only [detectIllnessPattern, List.map_eq_nil_iff, fired_retime]

theorem calculateConfidence_retime (t : ℚ) (l : List IllnessSignal) :
    calculateConfidence (l.map (retimeSignal t)) = calculateConfidence l := by
  simp only [calculateConfidence, List.map_eq_nil_iff, List.length_map, List.map_map]
  rfl

theorem optionToList_map (t : ℚ) (o : Option IllnessSignal) :
    (o.map (retimeSignal t)).toList = o.toList.map (retimeSignal t) := by
  cases o <;> rfl

theorem detect_time_dependence (t t' : ℚ) (r : List ReadinessRecord)
    (s : List SleepRecord) :
    detectIllnessSignals t r s = (detectIllnessSignals t' r s).retime t := by
  unfold detectIllnessSignals
  split
  · rfl
  · simp only [DetectionOutcome.retime, List.map_append]
    rw [checkTemperature_retime t t', checkHrv_retime t t', checkRestingHr_retime t t',
      checkRespiratoryRate_retime t t', checkRecoveryScore_retime t t']
    simp only [optionToList_map]
    rw [← List.map_append, ← List.map_append, ← List.map_append, ← List.map_append]
    rw [calculateRiskScore_retime, detectIllnessPattern_retime, calculateConfidence_retime]

theorem checkTemperature_sound {t : ℚ} {r : List ReadinessRecord}
    {b : IllnessBaselines} {sig : IllnessSignal}
    (h : checkTemperature t r b = some sig) :
    sig.signal_type = "temperature"
      ∧ (sig.severity = 0.4 ∨ sig.severity = 0.7 ∨ sig.severity = 1) := by
  unfold checkTemperature at h
  cases hb : b.temperature with
  | none => rw [hb] at h; cases h
  | some base =>
    rw [hb] at h
    dsimp only at h
    split_ifs at h <;> first
      | (exact absurd (by assumption : (0:ℚ) < 0) (lt_irrefl 0))
      | (cases h <;> exact ⟨rfl, by norm_num⟩)

theorem checkHrv_sound {t : ℚ} {r : List ReadinessRecord}
    {b : IllnessBaselines} {sig : IllnessSignal}
    (h : checkHrv t r b = some sig) :
    sig.signal_type = "hrv"
      ∧ (sig.severity = 0.4 ∨ sig.severity = 0.7 ∨ sig.severity = 1) := by
  unfold checkHrv at h
  cases hb : b.hrv with
  | none => rw [hb] at h; cases h
  | some base =>
    rw [hb] at h
    dsimp only at h
    split_ifs at h <;> first
      | (exact absurd (by assumption : (0:ℚ) < 0) (lt_irrefl 0))
      | (cases h <;> exact ⟨rfl, by norm_num⟩)

theorem checkRestingHr_sound {t : ℚ} {r : List ReadinessRecord}
    {b : IllnessBaselines} {sig : IllnessSignal}
    (h : checkRestingHr t r b = some sig) :
    sig.signal_type = "resting_hr"
      ∧ (sig.severity = 0.4 ∨ sig.severity = 0.7 ∨ sig.severity = 1) := by
  unfold checkRestingHr at h
  cases hb : b.resting_hr with
  | none => rw [hb] at h; cases h
  | some base =>
    rw [hb] at h
    dsimp only at h
    split_ifs at h <;> first
      | (exact absurd (by assumption : (0:ℚ) < 0) (lt_irrefl 0))
      | (cases h <;> exact ⟨rfl, by norm_num⟩)

theorem checkRespiratoryRate_sound {t : ℚ} {r : List SleepRecord}
    {b : IllnessBaselines} {sig : IllnessSignal}
    (h : checkRespiratoryRate t r b = some sig) :
    sig.signal_type = "respiratory_rate"
      ∧ (sig.severity = 0.4 ∨ sig.severity = 0.7 ∨ sig.severity = 1) := by
  unfold checkRespiratoryRate at h
  cases hb : b.respiratory_rate with
  | none => rw [hb] at h; cases h
  | some base =>
    rw [hb] at h
    dsimp only at h
    split_ifs at h <;> first
      | (exact absurd (by assumption : (0:ℚ) < 0) (lt_irrefl 0))
      | (cases h <;> exact ⟨rfl, by norm_num⟩)

theorem checkRecoveryScore_sound {t : ℚ} {r : List ReadinessRecord}
    {b : IllnessBaselines} {sig : IllnessSignal}
    (h : checkRecoveryScore t r b = some sig) :
    sig.signal_type = "recovery"
      ∧ (sig.severity = 0.4 ∨ sig.severity = 0.7 ∨ sig.severity = 1) := by
  unfold checkRecoveryScore at h
  cases hb : b.recovery_score with
  | none => rw [hb] at h; cases h
  | some base =>
    rw [hb] at h
    dsimp only at h
    split_ifs at h <;> first
      | (exact absurd (by assumption : (0:ℚ) < 0) (lt_irrefl 0))
      | (cases h <;> exact ⟨rfl, by norm_num⟩)

theorem detect_signals_sound (t : ℚ) (r : List ReadinessRecord)
    (s : List SleepRecord) :
    ∀ sig ∈ (detectIllnessSignals t r s).signals,
      sig.signal_type ∈
        ["temperature", "hrv", "resting_hr", "respiratory_rate", "recovery"]
      ∧ (sig.severity = 0.4 ∨ sig.severity = 0.7 ∨ sig.severity = 1) := by
  unfold detectIllnessSignals
  split
  · intro sig hsig
    simp [DetectionOutcome.signals] at hsig
  · intro sig hsig
    simp only [DetectionOutcome.signals, List.mem_append, Option.mem_toList,
      Option.mem_def] at hsig
    rcases hsig with ((((h | h) | h) | h) | h)
    · obtain ⟨h1, h2⟩ := checkTemperature_sound h
      exact ⟨by rw [h1]; simp, h2⟩
    · obtain ⟨h1, h2⟩ := checkHrv_sound h
      exact ⟨by rw [h1]; simp, h2⟩
    · obtain ⟨h1, h2⟩ := checkRestingHr_sound h
      exact ⟨by rw [h1]; simp, h2⟩
    · obtain ⟨h1, h2⟩ := checkRespiratoryRate_sound h
      exact ⟨by rw [h1]; simp, h2⟩
    · obtain ⟨h1, h2⟩ := checkRecoveryScore_sound h
      exact ⟨by rw [h1]; simp, h2⟩

theorem catalogWeight_pos (ty : String) : 0 < catalogWeight ty := by
  unfold catalogWeight
  split_ifs <;> norm_num

theorem totalWeight_pos {l : List IllnessSignal} (h : l ≠ []) :
    0 < totalWeight l := by
  cases l with
  | nil => exact absurd rfl h
  | cons a tl =>
    unfold totalWeight
    simp only [List.map_cons, List.sum_cons]
    have h1 := catalogWeight_pos a.signal_type
    have h2 : 0 ≤ (tl.map (fun s => catalogWeight s.signal_type)).sum := by
      apply List.sum_nonneg
      intro x hx
      simp only [List.mem_map] at hx
      obtain ⟨u, _, rfl⟩ := hx
      exact (catalogWeight_pos u.signal_type).le

    linarith

theorem detect_bridge (t : ℚ) (r : List ReadinessRecord) (s : List SleepRecord) :
    (detectIllnessSignals t r s).riskScore
      = calculateRiskScore (detectIllnessSignals t r s).signals
    ∧ (detectIllnessSignals t r s).riskLevel
      = determineRiskLevel ((detectIllnessSignals t r s).riskScore) := by
  unfold detectIllnessSignals
  split
  · refine ⟨?_, ?_⟩
    · simp [DetectionOutcome.riskScore, DetectionOutcome.signals, calculateRiskScore]
    · norm_num [DetectionOutcome.riskScore, DetectionOutcome.riskLevel,
        determineRiskLevel]
  · exact ⟨rfl, rfl⟩

open OuraCore.Baselines OuraCore.Anomalies

theorem pyRound_zero (n : ℕ) : pyRound 0 n = 0 := by
  unfold pyRound pyRoundInt
  norm_num [Int.fract]

theorem interpret_status_eq (current : ℝ) (b : Baseline) (h : b.count ≠ 0) :
    (interpret_deviation current b).status =
      if |devStd current b| < 0.5 then "normal"
      else if |devStd current b| < 1 then "slightly_abnormal"
      else if |devStd current b| < 1.5 then "moderately_abnormal"
      else "highly_abnormal" := by
  unfold interpret_deviation
  rw [if_neg h]

theorem rank_status_eq (current : ℝ) (b : Baseline) (h : b.count ≠ 0) :
    statusRank ((interpret_deviation current b).status) =
      if |devStd current b| < 0.5 then 0
      else if |devStd current b| < 1 then 1
      else if |devStd current b| < 1.5 then 2
      else 3 := by
  rw [interpret_status_eq current b h]
  split_ifs <;> simp [statusRank]

/-! # Claims -/

/-- C4: `interpret_recovery_state` computes
`recovery_score = hrv_balance*0.35 + readiness*0.30 + sleep_score*0.20
 + max(0, 100 - |resting_hr_deviation|*10)*0.10 + temperature_score*0.05`
and maps it by the cutpoints 80/70/60/50 to five tiers; the example inputs
(hrv_balance 80, readiness 85, sleep_score 90, resting_hr_deviation 0,
temperature_score 95) give score 86.25 and tier "Fully Recovered"; and for all
five inputs within [0,100] the score lies in [0,100]. -/
theorem recovery_state_spec :
    (∀ readiness hrv d sleep temp : ℚ,
      Interpretation.recoveryScore readiness hrv d sleep temp =
        hrv * 0.35 + readiness * 0.30 + sleep * 0.20 +
          max 0 (100 - |d| * 10) * 0.10 + temp * 0.05)
    ∧ Interpretation.recoveryScore 85 80 0 90 95 = 86.25
    ∧ Interpretation.recoveryState (Interpretation.recoveryScore 85 80 0 90 95)
        = "Fully Recovered"
    ∧ (∀ s : ℚ,
        (Interpretation.recoveryState s = "Fully Recovered" ↔ 80 ≤ s)
        ∧ (Interpretation.recoveryState s = "Well Recovered" ↔ 70 ≤ s ∧ s < 80)
        ∧ (Interpretation.recoveryState s = "Adequately Recovered" ↔ 60 ≤ s ∧ s < 70)
        ∧ (Interpretation.recoveryState s = "Partially Recovered" ↔ 50 ≤ s ∧ s < 60)
        ∧ (Interpretation.recoveryState s = "Not Recovered" ↔ s < 50))
    ∧ (∀ readiness hrv d sleep temp : ℚ,
        0 ≤ readiness → readiness ≤ 100 → 0 ≤ hrv → hrv ≤ 100 →
        0 ≤ d → d ≤ 100 → 0 ≤ sleep → sleep ≤ 100 → 0 ≤ temp → temp ≤ 100 →
        0 ≤ Interpretation.recoveryScore readiness hrv d sleep temp
          ∧ Interpretation.recoveryScore readiness hrv d sleep temp ≤ 100) := by
  refine ⟨fun _ _ _ _ _ => rfl, ?_, ?_, fun s => ?_, ?_⟩
  · norm_num [Interpretation.recoveryScore]
  · norm_num [Interpretation.recoveryScore, Interpretation.recoveryState]
  · unfold Interpretation.recoveryState
    split_ifs with h1 h2 h3 h4 <;>
      refine ⟨?_, ?_, ?_, ?_, ?_⟩ <;> simp_all <;> try constructor
    all_goals first
      | (intro h; exfalso; revert h; decide)
      | linarith
      | (intro h; linarith)
      | (intro h h2; linarith)
  · intro readiness hrv d sleep temp h1 h2 h3 h4 h5 h6 h7 h8 h9 h10
    unfold Interpretation.recoveryScore
    have hA : (0:ℚ) ≤ max 0 (100 - |d| * 10) := le_max_left 0 _
    have hB : max (0:ℚ) (100 - |d| * 10) ≤ 100 := by
      apply max_le (by norm_num)
      have := abs_nonneg d
      linarith
    constructor
    · positivity
    · nlinarith

/-- C5: the sleep-debt accumulator over the last seven sleep records is never
negative; a day with duration below the 8 h need increases it by exactly
(need - duration); a surplus day decreases it by exactly half the surplus,
clamped at zero; and durations [6, 6, 9] hours give a final debt of 3.5 h. -/
theorem sleep_debt_spec :
    (∀ sleep : List AlertSystem.SleepSession,
      0 ≤ AlertSystem.accumulatedSleepDebt sleep)
    ∧ (∀ debt : ℚ, ∀ s : AlertSystem.SleepSession,
        AlertSystem.durationHours s < 8 →
        AlertSystem.debtStep debt s = debt + (8 - AlertSystem.durationHours s))
    ∧ (∀ debt : ℚ, ∀ s : AlertSystem.SleepSession,
        8 ≤ AlertSystem.durationHours s →
        AlertSystem.debtStep debt s =
          max 0 (debt - (AlertSystem.durationHours s - 8) * 0.5))
    ∧ AlertSystem.accumulatedSleepDebt
        [⟨none, some 21600, none⟩, ⟨none, some 21600, none⟩,
         ⟨none, some 32400, none⟩] = 3.5 := by
  refine ⟨?_, ?_, ?_, ?_⟩
  · intro sleep
    exact AlertSystem.debtFoldl_nonneg _ 0 le_rfl
  · intro debt s h
    unfold AlertSystem.debtStep
    rw [if_pos (by linarith)]
  · intro debt s h
    unfold AlertSystem.debtStep
    rw [if_neg (by simp only [not_lt]; linarith)]
    ring_nf
  · norm_num [AlertSystem.accumulatedSleepDebt, AlertSystem.debtStep,
      AlertSystem.durationHours]

/-- Witness for C5 at concrete inputs: the empty window has debt 0 ≥ 0, a
6-hour night raises a 2 h debt to 4 h, and a 9-hour night lowers a 4 h debt
to 3.5 h. -/
theorem sleep_debt_spec_witness :
    0 ≤ AlertSystem.accumulatedSleepDebt []
    ∧ AlertSystem.debtStep 2 ⟨none, some 21600, none⟩ = 4
    ∧ AlertSystem.debtStep 4 ⟨none, some 32400, none⟩ = 3.5 := by
  refine ⟨sleep_debt_spec.1 [], ?_, ?_⟩
  · rw [sleep_debt_spec.2.1 2 ⟨none, some 21600, none⟩
      (by norm_num [AlertSystem.durationHours])]
    norm_num [AlertSystem.durationHours]
  · rw [sleep_debt_spec.2.2.1 4 ⟨none, some 32400, none⟩
      (by norm_num [AlertSystem.durationHours])]
    norm_num [AlertSystem.durationHours]

/-- Witness for C4 at a concrete input: all five inputs are within [0,100] and
the score bounds hold there, and the tier characterization applies at 86.25. -/
theorem recovery_state_spec_witness :
    (0 ≤ Interpretation.recoveryScore 85 80 0 90 95
      ∧ Interpretation.recoveryScore 85 80 0 90 95 ≤ 100)
    ∧ (Interpretation.recoveryState 86.25 = "Fully Recovered" ↔ (80:ℚ) ≤ 86.25) := by
  refine ⟨?_, (recovery_state_spec.2.2.2.1 86.25).1⟩
  exact recovery_state_spec.2.2.2.2 85 80 0 90 95 (by norm_num) (by norm_num)
    (by norm_num) (by norm_num) (by norm_num) (by norm_num) (by norm_num)
    (by norm_num) (by norm_num) (by norm_num)

/-- C1, counterexample: `detect_illness_signals` on one fixed input window,
called at clock reading 0 and at clock reading 1, returns two different
results — each emitted signal records the construction-time
`datetime.now()` in its `timestamp` field, so the output is
call-time-dependent. -/
theorem detect_repeated_calls_differ :
    detectIllnessSignals 0 sampleReadiness [] ≠ detectIllnessSignals 1 sampleReadiness [] := by
  norm_num [detectIllnessSignals, sampleReadiness, calcBaselines, optBaseline,
    tempValues, hrvValues, rhrValues, respValues, scoreValues, ratMean,
    checkTemperature, checkHrv, checkRestingHr, checkRespiratoryRate,
    checkRecoveryScore, calculateRiskScore, determineRiskLevel,
    detectIllnessPattern, calculateConfidence, fired, weightedSeveritySum,
    totalWeight, catalogWeight, List.filterMap, List.cons_ne_nil]

/-- The illness-detection result at time t equals the result at any other
time with all signal timestamps replaced by t. -/
theorem detect_retime (t t' : ℚ)
    (r : List ReadinessRecord) (s : List SleepRecord) :
    detectIllnessSignals t r s = (detectIllnessSignals t' r s).retime t := by
  unfold detectIllnessSignals
  split
  · rfl
  · simp only [DetectionOutcome.retime, List.map_append]
    rw [checkTemperature_retime t t', checkHrv_retime t t', checkRestingHr_retime t t',
      checkRespiratoryRate_retime t t', checkRecoveryScore_retime t t']
    simp only [optionToList_map]
    rw [← List.map_append, ← List.map_append, ← List.map_append, ← List.map_append]
    rw [calculateRiskScore_retime, detectIllnessPattern_retime, calculateConfidence_retime]

/-- C2: whenever at least 7 readiness records are supplied and at least one
illness signal is emitted, the composite risk score equals
Σ(severity×weight) / Σ(weight of exactly the emitted signals) × 100, lies in
[0,100], and the risk tier is critical iff score ≥ 70, high iff
50 ≤ score < 70, elevated iff 30 ≤ score < 50, and normal otherwise. -/
theorem illness_risk_score_spec (t : ℚ) (r : List ReadinessRecord)
    (s : List SleepRecord) (h7 : 7 ≤ r.length)
    (hne : (detectIllnessSignals t r s).signals ≠ []) :
    (detectIllnessSignals t r s).riskScore =
        weightedSeveritySum (detectIllnessSignals t r s).signals /
          totalWeight (detectIllnessSignals t r s).signals * 100
    ∧ 0 ≤ (detectIllnessSignals t r s).riskScore
    ∧ (detectIllnessSignals t r s).riskScore ≤ 100
    ∧ ((detectIllnessSignals t r s).riskLevel = .critical ↔
        70 ≤ (detectIllnessSignals t r s).riskScore)
    ∧ ((detectIllnessSignals t r s).riskLevel = .high ↔
        50 ≤ (detectIllnessSignals t r s).riskScore
          ∧ (detectIllnessSignals t r s).riskScore < 70)
    ∧ ((detectIllnessSignals t r s).riskLevel = .elevated ↔
        30 ≤ (detectIllnessSignals t r s).riskScore
          ∧ (detectIllnessSignals t r s).riskScore < 50)
    ∧ ((detectIllnessSignals t r s).riskLevel = .normal ↔
        (detectIllnessSignals t r s).riskScore < 30) := by
  obtain ⟨hsc, hlv⟩ := detect_bridge t r s
  have hsound := detect_signals_sound t r s
  have htw : 0 < totalWeight (detectIllnessSignals t r s).signals :=
    totalWeight_pos hne
  have hws0 : 0 ≤ weightedSeveritySum (detectIllnessSignals t r s).signals := by
    apply List.sum_nonneg
    intro x hx
    simp only [List.mem_map] at hx
    obtain ⟨sig, hmem, rfl⟩ := hx
    obtain ⟨-, hsev⟩ := hsound sig hmem
    have hn : 0 ≤ sig.severity := by
      rcases hsev with h | h | h <;> rw [h] <;> norm_num
    exact mul_nonneg hn (catalogWeight_pos _).le
  have hwle : weightedSeveritySum (detectIllnessSignals t r s).signals ≤
      totalWeight (detectIllnessSignals t r s).signals := by
    unfold weightedSeveritySum totalWeight
    apply List.sum_le_sum
    intro sig hmem
    obtain ⟨-, hsev⟩ := hsound sig hmem
    have h1 : sig.severity ≤ 1 := by
      rcases hsev with h | h | h <;> rw [h] <;> norm_num
    calc sig.severity * catalogWeight sig.signal_type
        ≤ 1 * catalogWeight sig.signal_type :=
          mul_le_mul_of_nonneg_right h1 (catalogWeight_pos _).le
      _ = catalogWeight sig.signal_type := one_mul _
  have hscore : (detectIllnessSignals t r s).riskScore =
      weightedSeveritySum (detectIllnessSignals t r s).signals /
        totalWeight (detectIllnessSignals t r s).signals * 100 := by
    rw [hsc]
    unfold calculateRiskScore
    rw [if_neg hne, if_pos htw]
  have hb0 : 0 ≤ (detectIllnessSignals t r s).riskScore := by
    rw [hscore]
    positivity
  have hb100 : (detectIllnessSignals t r s).riskScore ≤ 100 := by
    rw [hscore]
    have hd1 : weightedSeveritySum (detectIllnessSignals t r s).signals /
        totalWeight (detectIllnessSignals t r s).signals ≤ 1 :=
      (div_le_one htw).mpr hwle
    linarith
  refine ⟨hscore, hb0, hb100, ?_, ?_, ?_, ?_⟩ <;>
    (rw [hlv]; unfold determineRiskLevel; split_ifs <;>
      constructor <;> intro hh <;> first
        | rfl
        | (constructor <;> linarith)
        | linarith
        | (exact absurd hh (by simp))
        | (exfalso; rcases hh with ⟨hh1, hh2⟩ <;> linarith))

/-- Witness for C2: the concrete seven-day window `sampleReadiness` fires a
temperature signal, and the theorem's conclusions hold for it. -/
theorem illness_risk_score_spec_witness :
    (detectIllnessSignals 0 sampleReadiness []).riskScore =
        weightedSeveritySum (detectIllnessSignals 0 sampleReadiness []).signals /
          totalWeight (detectIllnessSignals 0 sampleReadiness []).signals * 100
    ∧ 0 ≤ (detectIllnessSignals 0 sampleReadiness []).riskScore
    ∧ (detectIllnessSignals 0 sampleReadiness []).riskScore ≤ 100
    ∧ ((detectIllnessSignals 0 sampleReadiness []).riskLevel = .critical ↔
        70 ≤ (detectIllnessSignals 0 sampleReadiness []).riskScore)
    ∧ ((detectIllnessSignals 0 sampleReadiness []).riskLevel = .high ↔
        50 ≤ (detectIllnessSignals 0 sampleReadiness []).riskScore
          ∧ (detectIllnessSignals 0 sampleReadiness []).riskScore < 70)
    ∧ ((detectIllnessSignals 0 sampleReadiness []).riskLevel = .elevated ↔
        30 ≤ (detectIllnessSignals 0 sampleReadiness []).riskScore
          ∧ (detectIllnessSignals 0 sampleReadiness []).riskScore < 50)
    ∧ ((detectIllnessSignals 0 sampleReadiness []).riskLevel = .normal ↔
        (detectIllnessSignals 0 sampleReadiness []).riskScore < 30) :=
  illness_risk_score_spec 0 sampleReadiness []
    (by norm_num [sampleReadiness])
    (by norm_num [detectIllnessSignals, sampleReadiness, calcBaselines, optBaseline,
      tempValues, hrvValues, rhrValues, respValues, scoreValues, ratMean,
      checkTemperature, checkHrv, checkRestingHr, checkRespiratoryRate,
      checkRecoveryScore, DetectionOutcome.signals, List.filterMap,
      List.cons_ne_nil])

/-- C3: illness-pattern classification is first-match-wins over the set of
fired channel types: with no signal the pattern is absent; whenever
{temperature, hrv, resting_hr} is a subset of the fired set the pattern is
"classic_infection" regardless of further fired channels — in particular for
the fired set exactly {temperature, hrv, resting_hr, respiratory_rate} the
result is "classic_infection" and not "respiratory_infection"; and when
signals fired but no rule matches, the pattern is "unknown_pattern". -/
theorem illness_pattern_spec (l : List IllnessSignal) :
    (l = [] → detectIllnessPattern l = none)
    ∧ (fired l "temperature" = true → fired l "hrv" = true →
        fired l "resting_hr" = true →
        detectIllnessPattern l = some "classic_infection")
    ∧ ((∀ ty : String, fired l ty = true ↔
          ty ∈ ["temperature", "hrv", "resting_hr", "respiratory_rate"]) →
        detectIllnessPattern l = some "classic_infection"
          ∧ detectIllnessPattern l ≠ some "respiratory_infection")
    ∧ (l ≠ [] →
        ¬(fired l "temperature" = true ∧ fired l "hrv" = true
            ∧ fired l "resting_hr" = true) →
        ¬(fired l "temperature" = true ∧ fired l "respiratory_rate" = true) →
        ¬(fired l "hrv" = true ∧ fired l "resting_hr" = true
            ∧ fired l "temperature" = false) →
        ¬(fired l "temperature" = true ∧ fired l "recovery" = true) →
        detectIllnessPattern l = some "unknown_pattern") := by
  refine ⟨?_, ?_, ?_, ?_⟩
  · intro h
    subst h
    rfl
  · intro h1 h2 h3
    have hne : l ≠ [] := by
      intro h
      subst h
      simp [fired] at h1
    unfold detectIllnessPattern
    rw [if_neg hne, if_pos (by simp [h1, h2, h3])]
  · intro h
    have h1 : fired l "temperature" = true := (h "temperature").mpr (by simp)
    have h2 : fired l "hrv" = true := (h "hrv").mpr (by simp)
    have h3 : fired l "resting_hr" = true := (h "resting_hr").mpr (by simp)
    have hne : l ≠ [] := by
      intro he
      subst he
      simp [fired] at h1
    have hc : detectIllnessPattern l = some "classic_infection" := by
      unfold detectIllnessPattern
      rw [if_neg hne, if_pos (by simp [h1, h2, h3])]
    refine ⟨hc, ?_⟩
    rw [hc]
    simp
  · intro hne hn1 hn2 hn3 hn4
    unfold detectIllnessPattern
    rw [if_neg hne, if_neg (by simp only [Bool.and_eq_true]; tauto),
      if_neg (by simp only [Bool.and_eq_true]; tauto),
      if_neg (by simp only [Bool.and_eq_true, Bool.not_eq_true']; tauto),
      if_neg (by simp only [Bool.and_eq_true]; tauto)]

/-- Witness for C3: the empty signal list yields no pattern, and the concrete
list whose fired set is exactly {temperature, hrv, resting_hr,
respiratory_rate} classifies as "classic_infection", not
"respiratory_infection". -/
theorem illness_pattern_spec_witness :
    detectIllnessPattern ([] : List IllnessSignal) = none
    ∧ (detectIllnessPattern patternSample = some "classic_infection"
        ∧ detectIllnessPattern patternSample ≠ some "respiratory_infection") := by
  refine ⟨(illness_pattern_spec []).1 rfl, (illness_pattern_spec patternSample).2.2.1 ?_⟩
  intro ty
  simp [fired, patternSample]
  tauto

/-- C6: for every baseline with count > 0, `interpret_deviation` assigns
status as a function of |std-units|: normal iff < 0.5, slightly_abnormal iff
in [0.5, 1), moderately_abnormal iff in [1, 1.5), highly_abnormal iff ≥ 1.5 —
so the four bands are mutually exclusive and the mapping is monotonic (a
larger |std-units| never yields a less severe status); a baseline with
count = 0 yields status "unknown" with all deviation fields 0. -/
theorem deviation_status_spec :
    (∀ current : ℝ, ∀ b : Baseline, b.count ≠ 0 →
      ((interpret_deviation current b).status = "normal" ↔ |devStd current b| < 0.5)
      ∧ ((interpret_deviation current b).status = "slightly_abnormal" ↔
          0.5 ≤ |devStd current b| ∧ |devStd current b| < 1)
      ∧ ((interpret_deviation current b).status = "moderately_abnormal" ↔
          1 ≤ |devStd current b| ∧ |devStd current b| < 1.5)
      ∧ ((interpret_deviation current b).status = "highly_abnormal" ↔
          1.5 ≤ |devStd current b|))
    ∧ (∀ c1 c2 : ℝ, ∀ b : Baseline, b.count ≠ 0 →
        |devStd c1 b| ≤ |devStd c2 b| →
        statusRank ((interpret_deviation c1 b).status) ≤
          statusRank ((interpret_deviation c2 b).status))
    ∧ (∀ current : ℝ, ∀ b : Baseline, b.count = 0 →
        (interpret_deviation current b).status = "unknown"
        ∧ (interpret_deviation current b).deviation_absolute = 0
        ∧ (interpret_deviation current b).deviation_percentage = 0
        ∧ (interpret_deviation current b).deviation_std = 0) := by
  refine ⟨?_, ?_, ?_⟩
  · intro current b h
    rw [interpret_status_eq current b h]
    refine ⟨?_, ?_, ?_, ?_⟩ <;>
      (split_ifs with a bb c <;> simp <;> first
        | linarith
        | (constructor <;> linarith)
        | (rintro ⟨h1, h2⟩ <;> linarith)
        | (intro h1 <;> linarith))
  · intro c1 c2 b h hle
    rw [rank_status_eq c1 b h, rank_status_eq c2 b h]
    split_ifs <;> first
      | omega
      | (exfalso; linarith)
  · intro current b h
    unfold interpret_deviation
    rw [if_pos h]
    exact ⟨rfl, rfl, rfl, rfl⟩

/-- C7: a single-sample value list gives std_dev = 0 (and the empty list a
zero-valued baseline, not an error), and `interpret_deviation` is total on
any current value and baseline: percentage deviation is forced to 0 when
mean = 0 and std-units is forced to 0 when std_dev = 0, so a single-sample
baseline always yields std-unit deviation 0. -/
theorem degenerate_baseline_spec :
    (∀ v : ℝ, (calculate_baseline [v]).std_dev = 0 ∧ (calculate_baseline [v]).count = 1)
    ∧ calculate_baseline [] = ⟨0, 0, 0, 0, 0⟩
    ∧ (∀ current v : ℝ,
        (interpret_deviation current (calculate_baseline [v])).deviation_std = 0)
    ∧ (∀ current : ℝ, ∀ b : Baseline, b.mean = 0 →
        (interpret_deviation current b).deviation_percentage = 0)
    ∧ (∀ current : ℝ, ∀ b : Baseline, b.std_dev = 0 →
        (interpret_deviation current b).deviation_std = 0) := by
  have hstd : ∀ current : ℝ, ∀ b : Baseline, b.std_dev = 0 →
      (interpret_deviation current b).deviation_std = 0 := by
    intro current b hb
    unfold interpret_deviation
    by_cases hc : b.count = 0
    · rw [if_pos hc]
    · rw [if_neg hc]
      show pyRound (devStd current b) 2 = 0
      have hd : devStd current b = 0 := by
        unfold devStd
        rw [if_neg (by simp [hb])]
      rw [hd, pyRound_zero]
  have hone : ∀ v : ℝ, (calculate_baseline [v]).std_dev = 0 ∧ (calculate_baseline [v]).count = 1 := by
    intro v
    constructor
    · show (if 1 < ([v] : List ℝ).length then stdev [v] else 0) = 0
      norm_num
    · rfl
  refine ⟨hone, rfl, ?_, ?_, hstd⟩
  · intro current v
    exact hstd current _ (hone v).1
  · intro current b hb
    unfold interpret_deviation
    by_cases hc : b.count = 0
    · rw [if_pos hc]
    · rw [if_neg hc]
      show pyRound (if b.mean ≠ 0 then (current - b.mean) / b.mean * 100 else 0) 1 = 0
      rw [if_neg (by simp [hb]), pyRound_zero]

/-- Witness for C6 at a concrete baseline (mean 10, stdev 1, 3 samples):
the band characterization at current value 10.2, monotonicity against
current value 12, and the unknown status on a zero-count baseline. -/
theorem deviation_status_spec_witness :
    ((interpret_deviation 10.2 ⟨10, 1, 0, 20, 3⟩).status = "normal" ↔
      |devStd 10.2 ⟨10, 1, 0, 20, 3⟩| < 0.5)
    ∧ statusRank ((interpret_deviation 10.2 ⟨10, 1, 0, 20, 3⟩).status) ≤
        statusRank ((interpret_deviation 12 ⟨10, 1, 0, 20, 3⟩).status)
    ∧ (interpret_deviation 5 ⟨0, 0, 0, 0, 0⟩).status = "unknown" := by
  refine ⟨(deviation_status_spec.1 10.2 ⟨10, 1, 0, 20, 3⟩ (by norm_num)).1, ?_, ?_⟩
  · refine deviation_status_spec.2.1 10.2 12 ⟨10, 1, 0, 20, 3⟩ (by norm_num) ?_
    unfold devStd
    norm_num [abs_le]
  · exact (deviation_status_spec.2.2 5 ⟨0, 0, 0, 0, 0⟩ rfl).1

/-- Witness for C7 at concrete inputs: the single-sample baseline of [5], a
mean-0 baseline, and a stdev-0 baseline. -/
theorem degenerate_baseline_spec_witness :
    (calculate_baseline [5]).std_dev = 0
    ∧ (interpret_deviation 3 ⟨0, 2, 0, 0, 3⟩).deviation_percentage = 0
    ∧ (interpret_deviation 7 ⟨4, 0, 1, 9, 2⟩).deviation_std = 0 :=
  ⟨(degenerate_baseline_spec.1 5).1,
   degenerate_baseline_spec.2.2.2.1 3 ⟨0, 2, 0, 0, 3⟩ rfl,
   degenerate_baseline_spec.2.2.2.2 7 ⟨4, 0, 1, 9, 2⟩ rfl⟩

theorem sampleVariance_recent : sampleVariance [60, 70, 80] = 100 := by
  unfold sampleVariance realMean
  norm_num

theorem stdev_recent : stdev [60, 70, 80] = 10 := by
  unfold stdev
  rw [sampleVariance_recent, show (100:ℝ) = 10 ^ 2 by norm_num,
    Real.sqrt_sq (by norm_num)]

theorem baseline_recent : calculate_baseline [60, 70, 80] = ⟨70, 10, 60, 80, 3⟩ := by
  unfold calculate_baseline
  norm_num [realMean, stdev_recent, min_def, max_def]

theorem sleep_baselines_recentWindow :
    calculate_sleep_baselines recentWindow =
      ⟨some ⟨70, 10, 60, 80, 3⟩, none, none, none, none, none, none, none⟩ := by
  unfold calculate_sleep_baselines
  norm_num [mkOptBaseline, sleepScoreValues, sleepContribValues, truthy,
    recentWindow, List.filterMap, baseline_recent, List.cons_ne_nil]

theorem interp_zero_status :
    (interpret_deviation 0 ⟨70, 10, 60, 80, 3⟩).status = "highly_abnormal" := by
  rw [interpret_status_eq 0 ⟨70, 10, 60, 80, 3⟩ (by norm_num)]
  have hd : devStd 0 ⟨70, 10, 60, 80, 3⟩ = -7 := by
    unfold devStd
    norm_num
  rw [hd, show |(-7:ℝ)| = 7 by rw [abs_of_nonpos] <;> norm_num]
  norm_num

/-- C8, counterexample: `detect_sleep_anomalies` on a current record with no
overall score, against a recent window with scores [60, 70, 80], emits a
sleep_score anomaly whose current value is 0 — the missing score was
substituted by `current_sleep.get("score", 0)` (anomalies.py line 46), not
skipped, refuting the claim that a record with no overall score does not get
a zero score substituted. -/
theorem sleep_anomaly_zero_score_substitution :
    noScoreNight.score = none
    ∧ (detect_sleep_anomalies noScoreNight recentWindow).map
        (fun a => (a.metric, a.current_value)) = [("sleep_score", 0)] := by
  refine ⟨rfl, ?_⟩
  unfold detect_sleep_anomalies
  rw [sleep_baselines_recentWindow]
  unfold sleepScoreAnomalies deepSleepAnomalies restfulnessAnomalies
  norm_num [noScoreNight, interp_zero_status]

/-- C8, amended: a day missing a metric is skipped for that metric in the
baseline extractors and the per-channel illness checks, but the two claimed
exceptions are not exhaustive — the core substitutes defaults in these
places: `detect_sleep_anomalies` scores a current record with a missing
overall score as 0 (it behaves exactly as if the record carried score 0);
the consecutive-bad-nights rule proxies a missing or zero score by
min(100, efficiency×1.2), with 50 when the efficiency is absent or 0; the
sleep-debt and bad-nights rules treat a missing total_sleep_duration as 0
seconds, a full 8-hour deficit; the declining-trend rules score a record
with a missing score as 0 rather than skipping it; and the inactivity rule
treats missing steps as 0, an inactive day.  By contrast, a current record
without the deep-sleep contributor yields no deep-sleep anomaly, and a
readiness day without the body-temperature contributor contributes nothing
to the illness temperature channel (omission). -/
theorem missing_metric_fallbacks_spec :
    (∀ current : SleepDaily, ∀ recent : List SleepDaily,
      current.score = none →
      detect_sleep_anomalies current recent
        = detect_sleep_anomalies { current with score := some 0 } recent)
    ∧ (∀ s : AlertSystem.SleepSession, s.score = none →
        AlertSystem.badNightScore s =
          if s.efficiency.getD 0 = 0 then 50
          else min 100 (s.efficiency.getD 0 * 1.2))
    ∧ (∀ s : AlertSystem.SleepSession, s.total_sleep_duration = none →
        AlertSystem.durationHours s = 0
        ∧ ∀ debt : ℚ, AlertSystem.debtStep debt s = debt + 8)
    ∧ (∀ r : Alerts.SleepRecord, ∀ rest : List Alerts.SleepRecord,
        r.score = none →
        Alerts.sleepTrendScores (r :: rest) = 0 :: Alerts.sleepTrendScores rest)
    ∧ (∀ r : Alerts.ReadinessRecord, ∀ rest : List Alerts.ReadinessRecord,
        r.score = none →
        Alerts.readinessTrendScores (r :: rest)
          = 0 :: Alerts.readinessTrendScores rest)
    ∧ (∀ a : Alerts.ActivityRecord, a.steps = none →
        a.steps.getD 0 = 0 ∧ Alerts.isInactiveDay a = true)
    ∧ (∀ current : SleepDaily, ∀ b : SleepBaselines,
        current.contributors.deep_sleep = none →
        deepSleepAnomalies current b = [])
    ∧ (∀ r : Illness.ReadinessRecord, ∀ rest : List Illness.ReadinessRecord,
        r.contributors.body_temperature = none →
        Illness.tempValues (r :: rest) = Illness.tempValues rest) := by
  refine ⟨?_, ?_, ?_, ?_, ?_, ?_, ?_, ?_⟩
  · intro current recent h
    unfold detect_sleep_anomalies sleepScoreAnomalies deepSleepAnomalies
      restfulnessAnomalies
    rw [h]
    rfl
  · intro s h
    unfold AlertSystem.badNightScore AlertSystem.proxyScore
    rw [h]
    dsimp only
    split_ifs with h1 h2 <;> first
      | rfl
      | (exact absurd h1 h2)
      | (exact absurd h2 h1)
  · intro s h
    have hd : AlertSystem.durationHours s = 0 := by
      unfold AlertSystem.durationHours
      rw [h]
      norm_num
    refine ⟨hd, fun debt => ?_⟩
    unfold AlertSystem.debtStep
    rw [hd]
    norm_num
  · intro r rest h
    simp [Alerts.sleepTrendScores, h]
  · intro r rest h
    simp [Alerts.readinessTrendScores, h]
  · intro a h
    refine ⟨by simp [h], ?_⟩
    unfold Alerts.isInactiveDay
    simp only [h, Option.getD_none, decide_eq_true_eq]
    norm_num
  · intro current b h
    unfold deepSleepAnomalies
    rw [h]
  · intro r rest h
    simp [Illness.tempValues, List.filterMap_cons, h]

/-- Witness for C8 (amended) at concrete records: a no-score record is
treated as score 0 by the sleep anomaly detector, a no-score session with
efficiency 90 gets the proxy score, a session with no duration counts as a
0-hour night, a no-score record contributes 0 to the sleep trend, and a
record with no steps counts as an inactive day. -/
theorem missing_metric_fallbacks_spec_witness :
    detect_sleep_anomalies noScoreNight []
      = detect_sleep_anomalies { noScoreNight with score := some 0 } []
    ∧ AlertSystem.badNightScore ⟨none, none, some 90⟩ =
        (if (⟨none, none, some 90⟩ : AlertSystem.SleepSession).efficiency.getD 0 = 0
         then 50
         else min 100
           ((⟨none, none, some 90⟩ : AlertSystem.SleepSession).efficiency.getD 0 * 1.2))
    ∧ AlertSystem.durationHours ⟨none, none, none⟩ = 0
    ∧ Alerts.sleepTrendScores [⟨none, none, none, none⟩]
        = 0 :: Alerts.sleepTrendScores []
    ∧ Alerts.isInactiveDay ⟨none, none⟩ = true :=
  ⟨missing_metric_fallbacks_spec.1 noScoreNight [] rfl,
   missing_metric_fallbacks_spec.2.1 ⟨none, none, some 90⟩ rfl,
   (missing_metric_fallbacks_spec.2.2.1 ⟨none, none, none⟩ rfl).1,
   missing_metric_fallbacks_spec.2.2.2.1 ⟨none, none, none, none⟩ [] rfl,
   (missing_metric_fallbacks_spec.2.2.2.2.2.1 ⟨none, none⟩ rfl).2⟩

theorem tempAnomalies_no_low_hrv (current : ReadinessDaily) :
    (tempAnomalies current).filter (fun x => x.anomaly_type = "low_hrv") = [] := by
  unfold tempAnomalies
  cases current.contributors.body_temperature with
  | none => rfl
  | some temp =>
    dsimp only
    split_ifs <;> simp

/-- C9, amended: for a current readiness record whose hrv_balance contributor
is present, PROVIDED the recent window yields an hrv_balance baseline (at
least one recent record carries the contributor), readiness-anomaly detection
emits exactly one "low_hrv" anomaly iff the contributor is below 50, whose
severity is "high" iff the contributor is below 30 and "medium" otherwise,
carrying the fixed cause list; for hrv_balance ≥ 50 no such anomaly is
emitted. -/
theorem readiness_low_hrv_spec (current : ReadinessDaily)
    (recent : List ReadinessDaily) (hrv : ℝ)
    (hc : current.contributors.hrv_balance = some hrv)
    (hbase : readinessContribValues recent (fun c => c.hrv_balance) ≠ []) :
    (hrv < 50 →
      (detect_readiness_anomalies current recent).filter
          (fun x => x.anomaly_type = "low_hrv")
        = [lowHrvAnomaly hrv (interpret_deviation hrv
            (calculate_baseline (readinessContribValues recent (fun c => c.hrv_balance))))])
    ∧ (50 ≤ hrv →
        (detect_readiness_anomalies current recent).filter
          (fun x => x.anomaly_type = "low_hrv") = [])
    ∧ (∀ h : ℝ, ∀ i : DeviationResult,
        (lowHrvAnomaly h i).metric = "hrv_balance"
        ∧ (lowHrvAnomaly h i).anomaly_type = "low_hrv"
        ∧ (lowHrvAnomaly h i).severity = (if h < 30 then "high" else "medium")
        ∧ (lowHrvAnomaly h i).current_value = h
        ∧ (lowHrvAnomaly h i).possible_causes = some lowHrvCauses) := by
  refine ⟨?_, ?_, fun h i => ⟨rfl, rfl, rfl, rfl, rfl⟩⟩ <;>
    (unfold detect_readiness_anomalies
     rw [List.filter_append, tempAnomalies_no_low_hrv, List.append_nil]
     unfold hrvAnomalies
     rw [hc]
     have hb : (calculate_readiness_baselines recent).hrv_balance
         = some (calculate_baseline
            (readinessContribValues recent (fun c => c.hrv_balance))) := by
       unfold calculate_readiness_baselines mkOptBaseline
       rw [if_neg hbase]
     rw [hb]
     dsimp only)
  · intro hlt
    rw [if_pos hlt]
    simp [lowHrvAnomaly]
  · intro hge
    rw [if_neg (by linarith)]
    rfl

/-- C9, counterexample to the claim as stated: a current record with
hrv_balance = 40 (present and below 50) against an empty recent window emits
NO anomaly at all — without an hrv_balance baseline from the recent window,
the low_hrv block is skipped entirely. -/
theorem readiness_low_hrv_needs_baseline :
    lowHrvDay.contributors.hrv_balance = some 40
    ∧ ((40:ℝ) < 50)
    ∧ detect_readiness_anomalies lowHrvDay [] = [] := by
  refine ⟨rfl, by norm_num, ?_⟩
  unfold detect_readiness_anomalies hrvAnomalies tempAnomalies
  norm_num [calculate_readiness_baselines, mkOptBaseline, readinessContribValues,
    List.filterMap, lowHrvDay]

/-- Witness for C9 (amended): a current record with hrv_balance 40 against a
one-day recent window with hrv_balance 60 emits exactly the low_hrv anomaly. -/
theorem readiness_low_hrv_spec_witness :
    (detect_readiness_anomalies lowHrvDay
        [⟨none, ⟨none, none, some 60, none, none, none, none, none, none⟩⟩]).filter
        (fun x => x.anomaly_type = "low_hrv")
      = [lowHrvAnomaly 40 (interpret_deviation 40 (calculate_baseline
          (readinessContribValues
            [⟨none, ⟨none, none, some 60, none, none, none, none, none, none⟩⟩]
            (fun c => c.hrv_balance))))] :=
  (readiness_low_hrv_spec lowHrvDay
      [⟨none, ⟨none, none, some 60, none, none, none, none, none, none⟩⟩] 40 rfl
      (by norm_num [readinessContribValues, List.filterMap, List.cons_ne_nil])).1
    (by norm_num)

theorem truthy_zeroToNone (o : Option ℝ) : truthy (zeroToNone o) = truthy o := by
  unfold zeroToNone truthy
  split_ifs with h
  · subst h
    simp
  · rfl

theorem truthy_eq_some {o : Option ℝ} {v : ℝ} (h : truthy o = some v) : v ≠ 0 := by
  unfold truthy at h
  cases o with
  | none => cases h
  | some w =>
    dsimp only [Option.bind] at h
    by_cases hw : w = 0
    · rw [if_pos hw] at h
      cases h
    · rw [if_neg hw] at h
      cases h
      exact hw


theorem sleepScoreValues_erase (l : List SleepDaily) :
    sleepScoreValues (l.map eraseZeroScoreSleep) = sleepScoreValues l := by
  unfold sleepScoreValues
  rw [List.filterMap_map]
  have he : (fun r : SleepDaily => truthy (eraseZeroScoreSleep r).score)
      = fun r : SleepDaily => truthy r.score :=
    funext fun r => truthy_zeroToNone r.score
  exact congrArg (fun f => List.filterMap f l) he

theorem sleepContribValues_erase (l : List SleepDaily)
    (f : SleepContributors → Option ℝ) :
    sleepContribValues (l.map eraseZeroScoreSleep) f = sleepContribValues l f := by
  unfold sleepContribValues
  rw [List.filterMap_map]
  rfl

theorem readinessScoreValues_erase (l : List ReadinessDaily) :
    readinessScoreValues (l.map eraseZeroScoreReadiness) = readinessScoreValues l := by
  unfold readinessScoreValues
  rw [List.filterMap_map]
  have he : (fun r : ReadinessDaily => truthy (eraseZeroScoreReadiness r).score)
      = fun r : ReadinessDaily => truthy r.score :=
    funext fun r => truthy_zeroToNone r.score
  exact congrArg (fun f => List.filterMap f l) he

theorem readinessContribValues_erase (l : List ReadinessDaily)
    (f : ReadinessContributors → Option ℝ) :
    readinessContribValues (l.map eraseZeroScoreReadiness) f
      = readinessContribValues l f := by
  unfold readinessContribValues
  rw [List.filterMap_map]
  rfl

theorem activityValues_erase (l : List ActivityDaily)
    (f : ActivityDaily → Option ℝ) (g : ActivityDaily → Option ℝ)
    (hfg : ∀ r, f (eraseZeroActivity r) = zeroToNone (g r)) :
    activityValues (l.map eraseZeroActivity) f = activityValues l g := by
  unfold activityValues
  rw [List.filterMap_map]
  have he : (fun r : ActivityDaily => truthy (f (eraseZeroActivity r)))
      = fun r : ActivityDaily => truthy (g r) :=
    funext fun r => by rw [hfg r, truthy_zeroToNone]
  exact congrArg (fun f => List.filterMap f l) he

/-- C10: in every family-baseline computation, a record whose overall score
is 0 — and, for activity, a record whose steps, total_calories or
active_calories is 0 — contributes no sample for that field, because presence
is tested by Python truthiness: mapping every stored 0 to an absent value
leaves all three family-baseline computations unchanged, and every extracted
sample is strictly nonzero. -/
theorem zero_truthiness_spec :
    (∀ l : List SleepDaily,
      calculate_sleep_baselines (l.map eraseZeroScoreSleep)
        = calculate_sleep_baselines l)
    ∧ (∀ l : List ReadinessDaily,
        calculate_readiness_baselines (l.map eraseZeroScoreReadiness)
          = calculate_readiness_baselines l)
    ∧ (∀ l : List ActivityDaily,
        calculate_activity_baselines (l.map eraseZeroActivity)
          = calculate_activity_baselines l)
    ∧ (∀ l : List SleepDaily, ∀ v ∈ sleepScoreValues l, v ≠ 0)
    ∧ (∀ l : List ReadinessDaily, ∀ v ∈ readinessScoreValues l, v ≠ 0)
    ∧ (∀ l : List ActivityDaily, ∀ f : ActivityDaily → Option ℝ,
        ∀ v ∈ activityValues l f, v ≠ 0) := by
  refine ⟨?_, ?_, ?_, ?_, ?_, ?_⟩
  · intro l
    unfold calculate_sleep_baselines
    rw [sleepScoreValues_erase, sleepContribValues_erase, sleepContribValues_erase,
      sleepContribValues_erase, sleepContribValues_erase, sleepContribValues_erase,
      sleepContribValues_erase, sleepContribValues_erase]
  · intro l
    unfold calculate_readiness_baselines
    rw [readinessScoreValues_erase, readinessContribValues_erase,
      readinessContribValues_erase, readinessContribValues_erase,
      readinessContribValues_erase, readinessContribValues_erase,
      readinessContribValues_erase, readinessContribValues_erase,
      readinessContribValues_erase, readinessContribValues_erase]
  · intro l
    unfold calculate_activity_baselines
    rw [activityValues_erase l (fun r => r.score) (fun r => r.score) (fun r => rfl),
      activityValues_erase l (fun r => r.steps) (fun r => r.steps) (fun r => rfl),
      activityValues_erase l (fun r => r.total_calories) (fun r => r.total_calories)
        (fun r => rfl),
      activityValues_erase l (fun r => r.active_calories) (fun r => r.active_calories)
        (fun r => rfl)]
  · intro l v hv
    obtain ⟨r, -, hr⟩ := List.mem_filterMap.mp hv
    exact truthy_eq_some hr
  · intro l v hv
    obtain ⟨r, -, hr⟩ := List.mem_filterMap.mp hv
    exact truthy_eq_some hr
  · intro l f v hv
    obtain ⟨r, -, hr⟩ := List.mem_filterMap.mp hv
    exact truthy_eq_some hr

/-- Witness for C10 at concrete records: a zero-score sleep record changes
nothing when its score is erased, and a concrete extracted sample value is
nonzero. -/
theorem zero_truthiness_spec_witness :
    calculate_sleep_baselines
        ([⟨some 0, ⟨none, none, none, none, none, none, none⟩⟩].map eraseZeroScoreSleep)
      = calculate_sleep_baselines
          [(⟨some 0, ⟨none, none, none, none, none, none, none⟩⟩ : SleepDaily)]
    ∧ ((5:ℝ) ≠ 0) :=
  ⟨zero_truthiness_spec.1 [⟨some 0, ⟨none, none, none, none, none, none, none⟩⟩],
   zero_truthiness_spec.2.2.2.1
     [⟨some 5, ⟨none, none, none, none, none, none, none⟩⟩] 5
     (by simp [sleepScoreValues, truthy, List.filterMap])⟩
namespace OuraCore.Alerts

theorem check_sleep_quality_retime (t t' : ℝ) (sleep : List SleepRecord) :
    check_sleep_quality_alerts t sleep
      = (check_sleep_quality_alerts t' sleep).map (retimeAlert t) := by
  unfold check_sleep_quality_alerts
  dsimp only
  split_ifs <;> rfl

theorem check_sleep_duration_retime (t t' need : ℝ) (sleep : List SleepRecord) :
    check_sleep_duration_alerts t need sleep
      = (check_sleep_duration_alerts t' need sleep).map (retimeAlert t) := by
  unfold check_sleep_duration_alerts
  dsimp only
  split_ifs <;> rfl

theorem check_sleep_debt_retime (t t' need : ℝ) (sleep : List SleepRecord) :
    check_sleep_debt_alerts t need sleep
      = (check_sleep_debt_alerts t' need sleep).map (retimeAlert t) := by
  unfold check_sleep_debt_alerts
  dsimp only
  split_ifs <;> rfl

theorem check_sleep_consistency_retime (t t' : ℝ) (sleep : List SleepRecord) :
    check_sleep_consistency_alerts t sleep
      = (check_sleep_consistency_alerts t' sleep).map (retimeAlert t) := by
  unfold check_sleep_consistency_alerts
  dsimp only
  split_ifs <;> rfl

theorem check_consecutive_bad_retime (t t' need : ℝ) (sleep : List SleepRecord) :
    check_consecutive_bad_nights t need sleep
      = (check_consecutive_bad_nights t' need sleep).map (retimeAlert t) := by
  unfold check_consecutive_bad_nights
  dsimp only
  split_ifs <;> rfl

theorem check_readiness_retime (t t' : ℝ) (readiness : List ReadinessRecord) :
    check_readiness_alerts t readiness
      = (check_readiness_alerts t' readiness).map (retimeAlert t) := by
  unfold check_readiness_alerts
  dsimp only
  split_ifs <;> rfl

theorem check_hrv_retime (t t' : ℝ) (readiness : List ReadinessRecord) :
    check_hrv_alerts t readiness
      = (check_hrv_alerts t' readiness).map (retimeAlert t) := by
  unfold check_hrv_alerts
  dsimp only
  split_ifs <;> rfl

theorem check_resting_hr_retime (t t' : ℝ) (readiness : List ReadinessRecord) :
    check_resting_hr_alerts t readiness
      = (check_resting_hr_alerts t' readiness).map (retimeAlert t) := by
  unfold check_resting_hr_alerts
  dsimp only
  split_ifs <;> rfl

theorem check_overtraining_retime (t t' : ℝ) (readiness : List ReadinessRecord)
    (activity : List ActivityRecord) :
    check_overtraining_alerts t readiness activity
      = (check_overtraining_alerts t' readiness activity).map (retimeAlert t) := by
  unfold check_overtraining_alerts
  dsimp only
  split_ifs <;> rfl

theorem check_activity_retime (t t' : ℝ) (activity : List ActivityRecord) :
    check_activity_alerts t activity
      = (check_activity_alerts t' activity).map (retimeAlert t) := by
  unfold check_activity_alerts
  dsimp only
  split_ifs <;> rfl

theorem check_declining_trends_retime (t t' : ℝ) (sleep : List SleepRecord)
    (readiness : List ReadinessRecord) (activity : List ActivityRecord) :
    check_declining_trends t sleep readiness activity
      = (check_declining_trends t' sleep readiness activity).map (retimeAlert t) := by
  unfold check_declining_trends
  dsimp only
  rw [List.map_append]
  split_ifs <;> rfl

theorem sortAlerts_retime (t : ℝ) (l : List HealthAlert) :
    sortAlerts (l.map (retimeAlert t)) = (sortAlerts l).map (retimeAlert t) := by
  unfold sortAlerts
  rw [List.filter_map, List.filter_map, List.filter_map, List.map_append,
    List.map_append]
  rfl

theorem check_all_retime (t t' : ℝ) (need : Option ℝ) (sleep : List SleepRecord)
    (readiness : List ReadinessRecord) (activity : List ActivityRecord) :
    check_all_alerts t need sleep readiness activity
      = retimeAlerts t (check_all_alerts t' need sleep readiness activity) := by
  unfold check_all_alerts retimeAlerts
  dsimp only
  rw [← sortAlerts_retime]
  simp only [List.map_append]
  rw [← check_sleep_quality_retime t t', ← check_sleep_duration_retime t t',
    ← check_sleep_debt_retime t t', ← check_sleep_consistency_retime t t',
    ← check_consecutive_bad_retime t t', ← check_readiness_retime t t',
    ← check_hrv_retime t t', ← check_resting_hr_retime t t',
    ← check_overtraining_retime t t', ← check_activity_retime t t',
    ← check_declining_trends_retime t t']

end OuraCore.Alerts

/-- C1, amended: for every fixed input window, repeated calls to the same
public operation agree on every output field except the per-signal /
per-alert timestamp, which is set to the clock reading of the call:
`detect_illness_signals` at time t returns the result of any other time with
all `IllnessSignal` timestamps replaced by t, and `check_all_alerts` at time
t returns the result of any other time with all `HealthAlert` timestamps
replaced by t.  Every other output field is a pure function of the input
window. -/
theorem time_invariant_up_to_timestamps :
    (∀ t t' : ℚ, ∀ r : List ReadinessRecord, ∀ s : List SleepRecord,
      detectIllnessSignals t r s = (detectIllnessSignals t' r s).retime t)
    ∧ (∀ t t' : ℝ, ∀ need : Option ℝ, ∀ sl : List Alerts.SleepRecord,
        ∀ rd : List Alerts.ReadinessRecord, ∀ ac : List Alerts.ActivityRecord,
        Alerts.check_all_alerts t need sl rd ac
          = Alerts.retimeAlerts t (Alerts.check_all_alerts t' need sl rd ac)) :=
  ⟨detect_retime, Alerts.check_all_retime⟩
